import Mathlib

/-!
Shallow embedding of the Hackathon-MDC-Satellite-VP backend core
(src/backend/config.py, core/state.py, core/delegator.py, core/satellites.py,
core/orchestrator_batteries.py, core/economics.py, core/equilibrium.py,
core/scheduler.py, core/equilibrum_monitor.py).

Python floats are modelled as rationals; the great-circle distance primitive
(utils/geo.haversine_km, an external collaborator per the spec) is passed in
as a function parameter; the cosine used by the toy daylight model is likewise
a parameter.  Dictionaries keyed by identity are modelled as association
lists in insertion order, matching Python dict iteration order.
-/

namespace SatVP

/-- Mirror of the Config dataclass in src/backend/config.py (the fields the
core logic reads), with the same default values. -/
structure Config where
  MAX_TASKS_PER_SAT : Nat := 30
  MIN_ENERGY_TO_ACCEPT : ℚ := 10
  TASK_ENERGY_RATE : ℚ := 1/10
  TASK_PROGRESS_RATE : ℚ := 2/100
  DRONE_SPEED_KM_PER_TICK : ℚ := 4000
  DRONE_RESERVE_PER_KM : ℚ := 1/1000
  DRONE_RESERVE_MIN_TO_CONTINUE : ℚ := 10
  DRONE_RESERVE_MAX : ℚ := 3000
  DRONE_TRAVEL_INSTANT : Bool := true
  DRONE_ENROUTE_MAX_TICKS : Int := 8
  DRONE_PAYLOAD_CHARGE_RATE : ℚ := 8
  DRONE_PAYLOAD_MAX : ℚ := 120
  PAYLOAD_CHARGE_MIN : ℚ := 15
  DRONE_HARVEST_RATE : ℚ := 10
  HARVEST_FLOOR : ℚ := 70
  HARVEST_START_LEVEL : ℚ := 80
  SAT_FULL_EPS : ℚ := 1/2
  DRONE_MAX_DWELL_TICKS : Int := 60
  AUTO_DISPATCH_ENABLED : Bool := true
  AUTO_NEEDY_THRESH : ℚ := 25
  AUTO_MAX_DRONES_PER_SAT : Nat := 2
  EQUILIBRIUM_CHECK_INTERVAL : Int := 10
  EQUILIBRIUM_WINDOW_TICKS : Nat := 50
  EQUILIBRIUM_DISPATCH_THRESHOLD : ℚ := -5
  w1 : ℚ := 35/100
  w2 : ℚ := 25/100
  w5 : ℚ := 5/100
deriving DecidableEq

/-- The global CONFIG instance (all defaults). -/
def CONFIG : Config := {}

/-- A lat/lon position (the `alt` key carried by some Python dicts is never
read by the core logic and is dropped). -/
structure Pos where
  lat : ℚ
  lon : ℚ
deriving DecidableEq

/-- One in-progress task record attached to a satellite
(the dict appended by delegator.assign_pending). -/
structure TaskRec where
  task_id : String
  remaining_energy : ℚ
  progress : ℚ
  pp_need : ℚ
  priority : String
deriving DecidableEq

/-- Mirror of core/models.py Satellite (the fields the core logic reads). -/
structure Sat where
  satellite_id : String
  energy_amount : ℚ
  max_energy : ℚ := 120
  processing_capacity : ℚ
  current_tasks : List TaskRec := []
  solar_gen_rate : ℚ := 35/100
  position : Pos
  company_name : String := ""
  owner_wallet : String := ""
  total_revenue : ℚ := 0
  total_energy_sold : ℚ := 0
deriving DecidableEq

/-- A drone target: the Python dicts are only ever set to
left-brace earth: True right-brace or left-brace satellite_id: sid right-brace. -/
inductive Target where
  | earth : Target
  | sat : String → Target
deriving DecidableEq

/-- Mirror of core/models.py Battery (a drone), plus the `_enroute_ticks`
attribute added at runtime by the orchestrator (getattr default 0). -/
structure Drone where
  battery_id : String
  reserve_battery : ℚ
  battery : ℚ
  position : Pos
  status : String := "standby"
  speed_km_per_tick : ℚ := 4000
  target : Option Target := none
  eta_ticks : Int := 0
  home_base : Pos := ⟨0, 0⟩
  dwell_ticks : Int := 0
  enroute_ticks : Int := 0
  company_name : String := ""
  owner_wallet : String := ""
  total_spent : ℚ := 0
  total_energy_bought : ℚ := 0
deriving DecidableEq

/-- Mirror of core/models.py Task (a queued task). -/
structure Task where
  task_id : String
  energy_need : ℚ
  processing_power_needed : ℚ
  priority : String
deriving DecidableEq

/-! ### Association-list operations (Python dict semantics, insertion order) -/

/-- Python dict lookup: d.get(k). -/
def lookupTab (t : List (String × String)) (k : String) : Option String :=
  match t with
  | [] => none
  | (k1, v) :: rest => if k1 = k then some v else lookupTab rest k

/-- Python dict assignment d[k] = v: replace in place if present, else append. -/
def setTab (t : List (String × String)) (k v : String) : List (String × String) :=
  match t with
  | [] => [(k, v)]
  | (k1, v1) :: rest =>
      if k1 = k then (k, v) :: rest else (k1, v1) :: setTab rest k v

/-- Python del d[k] (removes the entry for k). -/
def eraseTab (t : List (String × String)) (k : String) : List (String × String) :=
  match t with
  | [] => []
  | (k1, v1) :: rest => if k1 = k then rest else (k1, v1) :: eraseTab rest k

/-- core/state.py try_claim_sat: succeed when unclaimed or already owned by
the same drone, writing the claim; returns (success, new table). -/
def try_claim_sat (t : List (String × String)) (sat_id battery_id : String) :
    Bool × List (String × String) :=
  match lookupTab t sat_id with
  | none => (true, setTab t sat_id battery_id)
  | some owner =>
      if owner = battery_id then (true, setTab t sat_id battery_id)
      else (false, t)

/-- core/state.py release_sat: delete the entry only when the caller owns it. -/
def release_sat (t : List (String × String)) (sat_id battery_id : String) :
    List (String × String) :=
  if lookupTab t sat_id = some battery_id then eraseTab t sat_id else t

/-! ### World state (core/state.py module globals) -/

/-- The mutable world guarded by state.LOCK: SATELLITES, BATTERIES,
TASK_QUEUE, ASSIGNED, SAT_CLAIM, in insertion order. -/
structure World where
  satellites : List Sat
  batteries : List Drone
  queue : List Task := []
  assigned : List (String × String) := []
  claims : List (String × String) := []
deriving DecidableEq

def findSat (w : World) (sid : String) : Option Sat :=
  w.satellites.find? (fun s => s.satellite_id = sid)

def findDrone (w : World) (did : String) : Option Drone :=
  w.batteries.find? (fun d => d.battery_id = did)

/-- Replace the first list entry matching the key (Python dict entries are
unique per key, so mutating the object behind a key touches exactly one
entry — the one find? returns). -/
def replaceFirst (key : α → String) (k : String) (f : α → α) : List α → List α
  | [] => []
  | x :: xs => if key x = k then f x :: xs else x :: replaceFirst key k f xs

/-- In-place mutation of the satellite object with the given id. -/
def updSat (w : World) (sid : String) (f : Sat → Sat) : World :=
  { w with satellites :=
      replaceFirst (fun s => s.satellite_id) sid f w.satellites }

/-- In-place mutation of the drone object with the given id. -/
def updDrone (w : World) (did : String) (f : Drone → Drone) : World :=
  { w with batteries :=
      replaceFirst (fun d => d.battery_id) did f w.batteries }

/-! ### Task delegator (core/delegator.py) -/

/-- The priority-weight dict get with default 0.0. -/
def priorityWeight (p : String) : ℚ :=
  if p = "low" then 0
  else if p = "medium" then 1/2
  else if p = "high" then 1
  else 0

/-- delegator._score. -/
def score (cfg : Config) (s : Sat) (t : Task) : ℚ :=
  if s.energy_amount < cfg.MIN_ENERGY_TO_ACCEPT then -(10^9)
  else if cfg.MAX_TASKS_PER_SAT ≤ s.current_tasks.length then -(10^9)
  else
    let e := s.energy_amount / max s.max_energy 1
    let spare := max (s.processing_capacity - t.processing_power_needed) 0 /
                   max s.processing_capacity 1
    let qpen := (s.current_tasks.length : ℚ) * (15/100)
    cfg.w1 * e + cfg.w2 * spare + cfg.w5 * priorityWeight t.priority - qpen

/-- The best-satellite scan in assign_pending: starts at (None, -1e9) and
replaces only on a strictly greater score, so the first maximum wins. -/
def pickBest (cfg : Config) (sats : List Sat) (t : Task) : Option Sat × ℚ :=
  sats.foldl
    (fun acc s => if score cfg s t > acc.2 then (some s, score cfg s t) else acc)
    (none, -(10^9))

/-- The task record appended to the chosen satellite. -/
def mkTaskRec (t : Task) : TaskRec :=
  ⟨t.task_id, t.energy_need, 0, t.processing_power_needed, t.priority⟩

/-- The while-loop of delegator.assign_pending, structurally recursive on the
queue (each iteration pops the head or breaks). -/
def assignLoop (cfg : Config) :
    List Task → List Sat → List (String × String) →
    List Task × List Sat × List (String × String)
  | [], sats, asg => ([], sats, asg)
  | t :: rest, sats, asg =>
      match (pickBest cfg sats t).1 with
      | none => (t :: rest, sats, asg)
      | some b =>
          if (pickBest cfg sats t).2 < -(10^8) then (t :: rest, sats, asg)
          else
            assignLoop cfg rest
              (sats.map (fun s =>
                if s.satellite_id = b.satellite_id then
                  { s with current_tasks := s.current_tasks ++ [mkTaskRec t] }
                else s))
              (setTab asg t.task_id b.satellite_id)

/-- delegator.assign_pending acting on the world. -/
def assign_pending (cfg : Config) (w : World) : World :=
  let r := assignLoop cfg w.queue w.satellites w.assigned
  { w with queue := r.1, satellites := r.2.1, assigned := r.2.2 }

/-! ### Satellite tick processor (core/satellites.py) -/

/-- Python float modulo a % 24 for a rational a: the representative in
[0, 24). -/
def mod24 (a : ℚ) : ℚ := a - 24 * ⌊a / 24⌋

/-- satellites._daylight_factor.  `cosf` stands for math.cos (an external
primitive); its argument here is x * pi/2 expressed via the ramp input x,
so we pass cosf the normalized ramp value x in [-1, 1]. -/
def daylight_factor (cosf : ℚ → ℚ) (lat lon now_s : ℚ) : ℚ :=
  let _unused := lat
  let hrs := mod24 (now_s / 3600 + lon / 15)
  if 6 ≤ hrs ∧ hrs ≤ 18 then
    let x := (hrs - 12) / 6
    max 0 (cosf x)
  else 0

/-- One task of the per-satellite task loop in advance_tick: burn energy only
when available, otherwise crawl at efficiency 0.2; progress capped at 1. -/
def stepTask (cfg : Config) (energy : ℚ) (t : TaskRec) : ℚ × TaskRec :=
  let need := min cfg.TASK_ENERGY_RATE t.remaining_energy
  if energy ≥ need ∧ need > 0 then
    (energy - need,
     { t with remaining_energy := t.remaining_energy - need,
              progress := min 1 (t.progress + cfg.TASK_PROGRESS_RATE * 1) })
  else
    (energy,
     { t with progress := min 1 (t.progress + cfg.TASK_PROGRESS_RATE * (2/10)) })

/-- A task is complete when progress reached 1.0 or its energy need is
exhausted. -/
def taskDone (t : TaskRec) : Bool := t.progress ≥ 1 ∨ t.remaining_energy ≤ 0

/-- advance_tick body for one satellite: solar generation (the daylight
factor k is computed and then ignored by the source, which adds the raw
solar_gen_rate), then the task loop; returns the updated satellite and the
ids of completed tasks (removed from the list). -/
def advanceSat (cfg : Config) (cosf : ℚ → ℚ) (now_s : ℚ) (s : Sat) :
    Sat × List String :=
  let _k := daylight_factor cosf s.position.lat s.position.lon now_s
  let gen := s.solar_gen_rate
  let e1 := if gen > 0 then min s.max_energy (s.energy_amount + gen)
            else s.energy_amount
  let r := s.current_tasks.foldl
    (fun (acc : ℚ × List TaskRec) t =>
      let st := stepTask cfg acc.1 t
      (st.1, acc.2 ++ [st.2]))
    (e1, [])
  let kept := r.2.filter (fun t => ¬ taskDone t)
  let doneIds := (r.2.filter (fun t => taskDone t)).map (fun t => t.task_id)
  ({ s with energy_amount := r.1, current_tasks := kept }, doneIds)

/-- satellites.advance_tick over all satellites: each satellite is advanced
and its completed task ids are popped from ASSIGNED. -/
def advance_tick (cfg : Config) (cosf : ℚ → ℚ) (now_s : ℚ) (w : World) : World :=
  (w.satellites.map (fun s => s.satellite_id)).foldl
    (fun acc sid =>
      match findSat acc sid with
      | none => acc
      | some s =>
          let r := advanceSat cfg cosf now_s s
          let acc1 := updSat acc sid (fun _ => r.1)
          { acc1 with assigned := r.2.foldl (fun a tid => eraseTab a tid) acc1.assigned })
    w

/-! ### Drone orchestrator (core/orchestrator_batteries.py)

The great-circle distance utils/geo.haversine_km is an external primitive
(excluded collaborator per the spec) and is passed in as dist : Dist. -/

/-- The external geodesic-distance primitive. -/
abbrev Dist := Pos → Pos → ℚ

/-- Reserve battery cost for a distance in km. -/
def reserve_cost_km (cfg : Config) (km : ℚ) : ℚ := km * cfg.DRONE_RESERVE_PER_KM

/-- Whether the drone has enough reserve to reach the destination (with the
default minimum-to-continue floor). -/
def can_reach (cfg : Config) (dist : Dist) (d : Drone) (p : Pos) : Bool :=
  decide (d.reserve_battery ≥
    reserve_cost_km cfg (dist d.position p) + cfg.DRONE_RESERVE_MIN_TO_CONTINUE)

/-- orchestrator set_course: pay the reserve cost of the full distance now,
set the travel mode (instant: eta 0; multi-tick: eta = max 1 (km/speed)),
and reset the dwell and en-route counters. -/
def set_course (cfg : Config) (dist : Dist) (dest : Pos) (d : Drone) : Drone :=
  let d0 := { d with speed_km_per_tick := cfg.DRONE_SPEED_KM_PER_TICK }
  let dkm := dist d0.position dest
  let cost := reserve_cost_km cfg dkm
  let eta : Int :=
    if cfg.DRONE_TRAVEL_INSTANT then 0
    else max 1 ⌊dkm / max d0.speed_km_per_tick 1⌋
  { d0 with reserve_battery := d0.reserve_battery - cost,
            eta_ticks := eta, dwell_ticks := 0, enroute_ticks := 0 }

/-- orchestrator arrive_at. -/
def arrive_at (dest : Pos) (d : Drone) : Drone :=
  { d with position := dest, eta_ticks := 0, dwell_ticks := 0, enroute_ticks := 0 }

/-- Result of one tick_travel call: True / "timeout" / False. -/
inductive TravelRes where
  | arrived : TravelRes
  | timeout : TravelRes
  | progressing : TravelRes
deriving DecidableEq

/-- orchestrator tick_travel: instant mode arrives immediately; otherwise
decrement the ETA, bump the en-route counter, and time out once the counter
reaches the budget (checked before the arrival test). -/
def tick_travel (cfg : Config) (dest : Pos) (d : Drone) : Drone × TravelRes :=
  if cfg.DRONE_TRAVEL_INSTANT then (arrive_at dest d, .arrived)
  else if d.eta_ticks > 0 then
    if d.enroute_ticks + 1 ≥ cfg.DRONE_ENROUTE_MAX_TICKS then
      ({ d with eta_ticks := d.eta_ticks - 1,
                enroute_ticks := d.enroute_ticks + 1 }, .timeout)
    else if d.eta_ticks - 1 = 0 then
      (arrive_at dest { d with eta_ticks := d.eta_ticks - 1,
                               enroute_ticks := d.enroute_ticks + 1 }, .arrived)
    else ({ d with eta_ticks := d.eta_ticks - 1,
                   enroute_ticks := d.enroute_ticks + 1 }, .progressing)
  else (d, .progressing)

/-- target.get("satellite_id"): the satellite id carried by a target dict. -/
def targetSatId : Option Target → Option String
  | some (.sat sid) => some sid
  | _ => none

/-- orchestrator release_current_claim: release only when the target dict
holds a satellite_id. -/
def release_current_claim (w : World) (d : Drone) : World :=
  match targetSatId d.target with
  | some sid => { w with claims := release_sat w.claims sid d.battery_id }
  | none => w

/-- Count of other drones currently charging the given satellite. -/
def chargingCount (w : World) (selfId sid : String) : Nat :=
  (w.batteries.filter (fun b =>
    decide (b.battery_id ≠ selfId ∧ b.status = "charging" ∧
            targetSatId b.target = some sid))).length

/-- Whether any drone (including the caller) is charging the satellite. -/
def beingCharged (w : World) (sid : String) : Bool :=
  w.batteries.any (fun b =>
    decide (b.status = "charging" ∧ targetSatId b.target = some sid))

/-- Count of other drones currently harvesting the given satellite. -/
def harvestingCount (w : World) (selfId sid : String) : Nat :=
  (w.batteries.filter (fun b =>
    decide (b.battery_id ≠ selfId ∧ b.status = "harvesting" ∧
            targetSatId b.target = some sid))).length

/-- Strict lexicographic order on rational pairs. -/
def lexLt (a b : ℚ × ℚ) : Prop := a.1 < b.1 ∨ (a.1 = b.1 ∧ a.2 < b.2)

instance (a b : ℚ × ℚ) : Decidable (lexLt a b) := by
  unfold lexLt; infer_instance

/-- Leftmost minimum for a lexicographic (energy, crowding) key: the head of
the stable sort candidates.sort(key) used by the source. -/
def firstMinLexAux (key : α → ℚ × ℚ) (acc : α) : List α → α
  | [] => acc
  | x :: xs => firstMinLexAux key (if lexLt (key x) (key acc) then x else acc) xs

/-- Leftmost minimum of the list under the lexicographic key. -/
def firstMinLex (key : α → ℚ × ℚ) : List α → Option α
  | [] => none
  | x :: xs => some (firstMinLexAux key x xs)

/-- Leftmost maximum under a rational key (Python max keeps the first
maximal element). -/
def firstMaxByAux (key : α → ℚ) (acc : α) : List α → α
  | [] => acc
  | x :: xs => firstMaxByAux key (if key x > key acc then x else acc) xs

/-- Leftmost maximum of the list under the key. -/
def firstMaxBy (key : α → ℚ) : List α → Option α
  | [] => none
  | x :: xs => some (firstMaxByAux key x xs)

/-- orchestrator find_charging_target: satellites not full, reachable, below
the concurrent-charger cap; sorted by (energy, charger count) and the first
taken. -/
def find_charging_target (cfg : Config) (dist : Dist) (w : World) (d : Drone) :
    Option Sat :=
  let cands := w.satellites.filter (fun s =>
    decide (¬ (s.energy_amount ≥ s.max_energy - cfg.SAT_FULL_EPS)) &&
    can_reach cfg dist d s.position &&
    decide (chargingCount w d.battery_id s.satellite_id <
            cfg.AUTO_MAX_DRONES_PER_SAT))
  firstMinLex (fun s => (s.energy_amount,
    (chargingCount w d.battery_id s.satellite_id : ℚ))) cands

/-- orchestrator find_harvest_source: satellites at or above the harvest
start level, reachable, not being charged by anyone, with no other
harvester; the highest-energy one. -/
def find_harvest_source (cfg : Config) (dist : Dist) (w : World) (d : Drone) :
    Option Sat :=
  let cands := w.satellites.filter (fun s =>
    decide (s.energy_amount ≥ cfg.HARVEST_START_LEVEL) &&
    can_reach cfg dist d s.position &&
    ! beingCharged w s.satellite_id &&
    decide (harvestingCount w d.battery_id s.satellite_id = 0))
  firstMaxBy (fun s => s.energy_amount) cands

/-- orchestrator should_go_to_earth. -/
def should_go_to_earth (cfg : Config) (dist : Dist) (w : World) (d : Drone) :
    Bool :=
  if d.battery < cfg.PAYLOAD_CHARGE_MIN ∧
     d.reserve_battery < cfg.DRONE_RESERVE_MIN_TO_CONTINUE * 2 then true
  else if d.battery < cfg.PAYLOAD_CHARGE_MIN then
    (find_harvest_source cfg dist w d).isNone
  else false

/-- The return-to-Earth tail of choose_next_mission: release any claim, set
status returning with the Earth marker, and set course for home (note: with
no reachability check). -/
def goToEarth (cfg : Config) (dist : Dist) (w : World) (did : String) : World :=
  match findDrone w did with
  | none => w
  | some d =>
      let w1 := release_current_claim w d
      updDrone w1 did (fun d0 =>
        set_course cfg dist d0.home_base
          { d0 with status := "returning", target := some .earth })

/-- The go-en-route update shared by the charge and harvest branches of
choose_next_mission and by auto-dispatch. -/
def goEnrouteTo (cfg : Config) (dist : Dist) (w : World) (did : String)
    (t : Sat) : World :=
  updDrone w did (fun d0 =>
    set_course cfg dist t.position
      { d0 with status := "enroute", target := some (.sat t.satellite_id) })

/-- The harvest-then-Earth tail of choose_next_mission (the code reached
when the charging branch does not return). -/
def chooseHarvestOrEarth (cfg : Config) (dist : Dist) (w : World) (did : String)
    (d : Drone) : World :=
  match find_harvest_source cfg dist w d with
  | some t =>
      if (try_claim_sat w.claims t.satellite_id did).1 then
        goEnrouteTo cfg dist
          { w with claims := (try_claim_sat w.claims t.satellite_id did).2 } did t
      else goToEarth cfg dist w did
  | none => goToEarth cfg dist w did

/-- orchestrator choose_next_mission: Earth if forced; else the best charging
target (claimed); else a harvest source (claimed); else Earth. -/
def choose_next_mission (cfg : Config) (dist : Dist) (w : World) (did : String) :
    World :=
  match findDrone w did with
  | none => w
  | some d =>
    if should_go_to_earth cfg dist w d then goToEarth cfg dist w did
    else if d.battery ≥ cfg.PAYLOAD_CHARGE_MIN then
      match find_charging_target cfg dist w d with
      | some t =>
          if (try_claim_sat w.claims t.satellite_id did).1 then
            goEnrouteTo cfg dist
              { w with claims := (try_claim_sat w.claims t.satellite_id did).2 } did t
          else chooseHarvestOrEarth cfg dist w did d
      | none => chooseHarvestOrEarth cfg dist w did d
    else chooseHarvestOrEarth cfg dist w did d

/-- Stable ascending insertion by energy (Python list.sort is stable). -/
def insertByEnergy (s : Sat) : List Sat → List Sat
  | [] => [s]
  | t :: ts =>
      if s.energy_amount ≤ t.energy_amount then s :: t :: ts
      else t :: insertByEnergy s ts

/-- Stable sort of satellites ascending by energy. -/
def sortByEnergy : List Sat → List Sat
  | [] => []
  | s :: ss => insertByEnergy s (sortByEnergy ss)

/-- The closest-available-drone scan of auto_dispatch: strict less-than
against a 1e18 sentinel, first drone winning ties. -/
def closestAvail (dist : Dist) (p : Pos) (l : List Drone) : Option Drone :=
  (l.foldl
    (fun (acc : Option Drone × ℚ) b =>
      if dist b.position p < acc.2 then (some b, dist b.position p) else acc)
    (none, 10^18)).1

/-- One needy satellite of the auto-dispatch loop, threading the world and
the remaining available-drone ids. -/
def dispatchOne (cfg : Config) (dist : Dist) (acc : World × List String)
    (sat : Sat) : World × List String :=
  if acc.2.isEmpty then acc
  else if cfg.AUTO_MAX_DRONES_PER_SAT ≤ (acc.1.batteries.filter (fun b =>
      decide (targetSatId b.target = some sat.satellite_id))).length then acc
  else
    match closestAvail dist sat.position
        (acc.2.filterMap (fun i =>
          (findDrone acc.1 i).filter (fun b => can_reach cfg dist b sat.position))) with
    | none => acc
    | some b =>
        if (try_claim_sat acc.1.claims sat.satellite_id b.battery_id).1 then
          (goEnrouteTo cfg dist
             { acc.1 with
               claims := (try_claim_sat acc.1.claims sat.satellite_id b.battery_id).2 }
             b.battery_id sat,
           acc.2.erase b.battery_id)
        else acc

/-- orchestrator auto_dispatch. -/
def auto_dispatch (cfg : Config) (dist : Dist) (w : World) : World :=
  if ! cfg.AUTO_DISPATCH_ENABLED then w
  else if (w.satellites.filter (fun s =>
      decide (s.energy_amount < cfg.AUTO_NEEDY_THRESH))).isEmpty then w
  else
    ((sortByEnergy (w.satellites.filter (fun s =>
        decide (s.energy_amount < cfg.AUTO_NEEDY_THRESH)))).foldl
      (dispatchOne cfg dist)
      (w, (w.batteries.filter (fun b =>
        decide ((b.status = "at_earth" ∨ b.status = "standby") ∧
                b.battery ≥ cfg.PAYLOAD_CHARGE_MIN))).map (fun b => b.battery_id))).1

/-- The charging stop test and its recorded reason, evaluated after the
dwell increment (source lines 381-390): full, else empty, else max_dwell. -/
def chargingStopReason (cfg : Config) (s : Sat) (d : Drone) : Option String :=
  if s.energy_amount ≥ s.max_energy - cfg.SAT_FULL_EPS then some "full"
  else if d.battery < cfg.PAYLOAD_CHARGE_MIN then some "empty"
  else if d.dwell_ticks ≥ cfg.DRONE_MAX_DWELL_TICKS then some "max_dwell"
  else none

/-- The harvesting stop test and its recorded reason (source lines 424-433). -/
def harvestStopReason (cfg : Config) (s : Sat) (d : Drone) : Option String :=
  if s.energy_amount ≤ cfg.HARVEST_FLOOR then some "low"
  else if d.battery ≥ cfg.DRONE_PAYLOAD_MAX - 1 then some "full"
  else if d.dwell_ticks ≥ cfg.DRONE_MAX_DWELL_TICKS then some "max_dwell"
  else none

/-- give = min(DRONE_PAYLOAD_CHARGE_RATE, drone.battery, deficit). -/
def chargeAmount (cfg : Config) (s : Sat) (d : Drone) : ℚ :=
  min cfg.DRONE_PAYLOAD_CHARGE_RATE
    (min d.battery (s.max_energy - s.energy_amount))

/-- take = min(DRONE_HARVEST_RATE, free payload capacity, amount above the
harvest floor). -/
def harvestAmount (cfg : Config) (s : Sat) (d : Drone) : ℚ :=
  min cfg.DRONE_HARVEST_RATE
    (min (cfg.DRONE_PAYLOAD_MAX - d.battery)
         (max 0 (s.energy_amount - cfg.HARVEST_FLOOR)))

/-- The timeout-recovery mutations (source lines 311-317 / 354-360):
status returning toward Earth, teleport to home base, refill both gauges. -/
def recoverFn (cfg : Config) (d1 : Drone) : Drone :=
  { d1 with status := "returning", target := some .earth,
            position := d1.home_base, battery := cfg.DRONE_PAYLOAD_MAX,
            reserve_battery := cfg.DRONE_RESERVE_MAX }

/-- Travel handling of route for a drone whose target is the Earth marker. -/
def travelToEarth (cfg : Config) (dist : Dist) (w : World) (did : String)
    (d : Drone) : World :=
  match tick_travel cfg d.home_base d with
  | (d1, TravelRes.arrived) =>
      choose_next_mission cfg dist
        (updDrone w did (fun _ =>
          { d1 with
            status := "at_earth", battery := cfg.DRONE_PAYLOAD_MAX,
            reserve_battery := cfg.DRONE_RESERVE_MAX, target := none })) did
  | (d1, TravelRes.timeout) =>
      updDrone (release_current_claim w d1) did (fun _ => recoverFn cfg d1)
  | (d1, TravelRes.progressing) => updDrone w did (fun _ => d1)

/-- Travel handling of route for a drone whose target is a satellite. -/
def travelToSat (cfg : Config) (dist : Dist) (w : World) (did : String)
    (d : Drone) (sid : String) : World :=
  match findSat w sid with
  | none => choose_next_mission cfg dist (release_current_claim w d) did
  | some sat =>
    match tick_travel cfg sat.position d with
    | (d1, TravelRes.arrived) =>
        if d1.battery ≥ cfg.PAYLOAD_CHARGE_MIN ∧
           sat.energy_amount < sat.max_energy - cfg.SAT_FULL_EPS then
          updDrone (updDrone w did (fun _ => d1)) did
            (fun d0 => { d0 with status := "charging", dwell_ticks := 0 })
        else if sat.energy_amount ≥ cfg.HARVEST_START_LEVEL then
          updDrone (updDrone w did (fun _ => d1)) did
            (fun d0 => { d0 with status := "harvesting", dwell_ticks := 0 })
        else
          choose_next_mission cfg dist
            (release_current_claim (updDrone w did (fun _ => d1)) d1) did
    | (d1, TravelRes.timeout) =>
        updDrone (release_current_claim w d1) did (fun _ => recoverFn cfg d1)
    | (d1, TravelRes.progressing) => updDrone w did (fun _ => d1)

/-- The charging branch of route (source lines 367-407); the dwell counter
is bumped before the stop test. -/
def chargingBlock (cfg : Config) (dist : Dist) (w : World) (did : String)
    (d : Drone) : World :=
  match targetSatId d.target with
  | none => choose_next_mission cfg dist w did
  | some sid =>
    match findSat w sid with
    | none => choose_next_mission cfg dist (release_current_claim w d) did
    | some sat =>
      match chargingStopReason cfg sat { d with dwell_ticks := d.dwell_ticks + 1 } with
      | some _ =>
          choose_next_mission cfg dist
            (release_current_claim
              (updDrone w did (fun d0 => { d0 with dwell_ticks := d0.dwell_ticks + 1 }))
              { d with dwell_ticks := d.dwell_ticks + 1 }) did
      | none =>
          if 0 < chargeAmount cfg sat { d with dwell_ticks := d.dwell_ticks + 1 } then
            updSat
              (updDrone
                (updDrone w did (fun d0 => { d0 with dwell_ticks := d0.dwell_ticks + 1 }))
                did (fun d0 =>
                  { d0 with battery := d0.battery -
                      chargeAmount cfg sat { d with dwell_ticks := d.dwell_ticks + 1 } }))
              sid (fun s0 =>
                { s0 with energy_amount := s0.energy_amount +
                    chargeAmount cfg sat { d with dwell_ticks := d.dwell_ticks + 1 } })
          else updDrone w did (fun d0 => { d0 with dwell_ticks := d0.dwell_ticks + 1 })

/-- The harvesting branch of route (source lines 410-452). -/
def harvestingBlock (cfg : Config) (dist : Dist) (w : World) (did : String)
    (d : Drone) : World :=
  match targetSatId d.target with
  | none => choose_next_mission cfg dist w did
  | some sid =>
    match findSat w sid with
    | none => choose_next_mission cfg dist (release_current_claim w d) did
    | some sat =>
      match harvestStopReason cfg sat { d with dwell_ticks := d.dwell_ticks + 1 } with
      | some _ =>
          choose_next_mission cfg dist
            (release_current_claim
              (updDrone w did (fun d0 => { d0 with dwell_ticks := d0.dwell_ticks + 1 }))
              { d with dwell_ticks := d.dwell_ticks + 1 }) did
      | none =>
          if 0 < harvestAmount cfg sat { d with dwell_ticks := d.dwell_ticks + 1 } then
            updSat
              (updDrone
                (updDrone w did (fun d0 => { d0 with dwell_ticks := d0.dwell_ticks + 1 }))
                did (fun d0 =>
                  { d0 with battery := d0.battery +
                      harvestAmount cfg sat { d with dwell_ticks := d.dwell_ticks + 1 } }))
              sid (fun s0 =>
                { s0 with energy_amount := s0.energy_amount -
                    harvestAmount cfg sat { d with dwell_ticks := d.dwell_ticks + 1 } })
          else updDrone w did (fun d0 => { d0 with dwell_ticks := d0.dwell_ticks + 1 })

/-- The per-drone body of the route loop (status dispatch with the same
fall-through semantics as the source: a travel-status drone with no target
falls through all later branches untouched). -/
def processDrone (cfg : Config) (dist : Dist) (w : World) (did : String) :
    World :=
  match findDrone w did with
  | none => w
  | some d =>
    if d.status = "out_of_service" then w
    else if d.status = "enroute" ∨ d.status = "returning" then
      match d.target with
      | some .earth => travelToEarth cfg dist w did d
      | some (.sat sid) => travelToSat cfg dist w did d sid
      | none => w
    else if d.status = "charging" then chargingBlock cfg dist w did d
    else if d.status = "harvesting" then harvestingBlock cfg dist w did d
    else if (d.status = "standby" ∨ d.status = "at_earth") ∧ d.target = none then
      choose_next_mission cfg dist w did
    else w

/-- orchestrator route: auto-dispatch, then the per-drone pass over the
(fixed) id set of the battery table. -/
def route (cfg : Config) (dist : Dist) (w : World) : World :=
  let w1 := auto_dispatch cfg dist w
  (w1.batteries.map (fun b => b.battery_id)).foldl (processDrone cfg dist) w1

/-! ### Economics engine (core/economics.py) -/

/-- Mirror of core/models.py Transaction. -/
structure Transaction where
  transaction_id : String
  timestamp : ℚ
  from_entity_id : String
  from_company : String
  from_wallet : String
  to_entity_id : String
  to_company : String
  to_wallet : String
  energy_amount : ℚ
  price_per_unit : ℚ
  total_cost : ℚ
  transaction_type : String
  status : String := "completed"
deriving DecidableEq

/-- EconomicsEngine mutable state: the bounded ledger (deque maxlen 1000)
and the global traded-volume counter. -/
structure Econ where
  transactions : List Transaction := []
  total_volume_sol : ℚ := 0
deriving DecidableEq

/-- The capacity of the transaction deque. -/
def LEDGER_CAP : Nat := 1000

/-- deque(maxlen = cap) append: push right, evicting from the left past the
capacity. -/
def appendBounded (cap : Nat) (l : List α) (x : α) : List α :=
  let l1 := l ++ [x]
  if cap < l1.length then l1.drop (l1.length - cap) else l1

/-- EconomicsEngine.calculate_dynamic_price: scarcity-tiered multiplier on
the 0.05 base price, keyed on the energy-utilization fraction. -/
def calculate_dynamic_price (s : Sat) : ℚ :=
  let base_price : ℚ := 5/100
  let utilization := s.energy_amount / s.max_energy
  let multiplier : ℚ :=
    if utilization < 2/10 then 5/2
    else if utilization < 4/10 then 18/10
    else if utilization < 6/10 then 13/10
    else if utilization < 8/10 then 1
    else 7/10
  base_price * multiplier

/-- EconomicsEngine.process_energy_transfer: Earth-sourced transfers are
free; satellite-sourced ones are priced dynamically and update both parties
and the volume counter; every call appends exactly one Transaction to the
bounded ledger.  The uuid transaction id and wall-clock timestamp are passed
in.  Returns (new engine state, updated source, updated drone, the record). -/
def process_energy_transfer (econ : Econ) (from_sat : Option Sat)
    (to_drone : Drone) (amount : ℚ) (transfer_type : String)
    (txid : String) (now : ℚ) : Econ × Option Sat × Drone × Transaction :=
  match from_sat with
  | none =>
      let txn : Transaction :=
        { transaction_id := txid, timestamp := now,
          from_entity_id := "earth", from_company := "Earth Energy Authority",
          from_wallet := "earth-central",
          to_entity_id := to_drone.battery_id, to_company := to_drone.company_name,
          to_wallet := to_drone.owner_wallet,
          energy_amount := amount, price_per_unit := 0, total_cost := 0,
          transaction_type := "earth_recharge" }
      ({ econ with transactions := appendBounded LEDGER_CAP econ.transactions txn },
       none, to_drone, txn)
  | some s =>
      let price := calculate_dynamic_price s
      let total := amount * price
      let txn : Transaction :=
        { transaction_id := txid, timestamp := now,
          from_entity_id := s.satellite_id, from_company := s.company_name,
          from_wallet := s.owner_wallet,
          to_entity_id := to_drone.battery_id, to_company := to_drone.company_name,
          to_wallet := to_drone.owner_wallet,
          energy_amount := amount, price_per_unit := price, total_cost := total,
          transaction_type := transfer_type }
      ({ transactions := appendBounded LEDGER_CAP econ.transactions txn,
         total_volume_sol := econ.total_volume_sol + total },
       some { s with total_revenue := s.total_revenue + total,
                     total_energy_sold := s.total_energy_sold + amount },
       { to_drone with total_spent := to_drone.total_spent + total,
                       total_energy_bought := to_drone.total_energy_bought + amount },
       txn)

/-! ### Equilibrium monitor (core/equilibrium.py) -/

/-- One rolling-window sample recorded per tick. -/
structure Sample where
  tick : Int
  total_energy : ℚ
  capacity : ℚ
  utilization : ℚ
  active_drones : Nat
  idle_drones : Nat
deriving DecidableEq

/-- A fleet-sizing recommendation dict. -/
structure Recommendation where
  action : String
  count : Option Int := none
  total_needed : Option Int := none
  reason : String
deriving DecidableEq

/-- EquilibriumMonitor mutable state. -/
structure Monitor where
  energy_history : List Sample := []
  tick_count : Int := 0
  last_recommendation : Option Recommendation := none
deriving DecidableEq

/-- EquilibriumMonitor._calculate_drone_need: ordered rule precedence. -/
def calculate_drone_need (cfg : Config) (trend avg_util : ℚ)
    (critical_sats : Nat) (total : Int) (idle : Nat) : Recommendation :=
  if trend < cfg.EQUILIBRIUM_DISPATCH_THRESHOLD * 2 then
    { action := "add_drones", count := some 2, total_needed := some (total + 2),
      reason := "severe_energy_loss" }
  else if trend < cfg.EQUILIBRIUM_DISPATCH_THRESHOLD then
    { action := "add_drones", count := some 1, total_needed := some (total + 1),
      reason := "moderate_energy_loss" }
  else if critical_sats > 0 ∧ idle > 0 then
    { action := "dispatch_idle", reason := "critical_satellites_with_idle_drones" }
  else if 4/10 ≤ avg_util ∧ avg_util ≤ 7/10 ∧ |trend| < 5 then
    { action := "maintain", reason := "equilibrium_achieved" }
  else if idle > 1 ∧ trend > 10 ∧ avg_util > 8/10 then
    { action := "reduce_drones", count := some 1, reason := "excess_capacity" }
  else
    { action := "maintain", reason := "monitoring" }

/-- A default sample for total list access (never used on the reachable
paths, where the window is known nonempty). -/
def sample0 : Sample := ⟨0, 0, 0, 0, 0, 0⟩

/-- EquilibriumMonitor._check_equilibrium on the post-append state: with at
least 10 samples, compare the newest and oldest of the last 10, average the
utilization, and update last_recommendation when it changed (the event
broadcast itself is transport). -/
def check_equilibrium (cfg : Config) (w : World) (m : Monitor) : Monitor :=
  if m.energy_history.length < 10 then m
  else
    let recent := m.energy_history.drop (m.energy_history.length - 10)
    let oldest := (recent.head?.getD sample0).total_energy
    let newest := ((recent.getLast? ).getD sample0).total_energy
    let trend := newest - oldest
    let avg_util := (recent.map (fun r => r.utilization)).sum / recent.length
    let critical_sats := (w.satellites.filter (fun s =>
      decide (s.energy_amount < cfg.AUTO_NEEDY_THRESH))).length
    let total_drones : Int := w.batteries.length
    let idle := ((recent.getLast? ).getD sample0).idle_drones
    let rec0 := calculate_drone_need cfg trend avg_util critical_sats
      total_drones idle
    if some rec0 ≠ m.last_recommendation then
      { m with last_recommendation := some rec0 }
    else m

/-- EquilibriumMonitor.record_tick: append one bounded sample, bump the tick
counter, and run the equilibrium check every EQUILIBRIUM_CHECK_INTERVAL
ticks. -/
def record_tick (cfg : Config) (w : World) (m : Monitor) : Monitor :=
  let total_energy := (w.satellites.map (fun s => s.energy_amount)).sum
  let total_capacity := (w.satellites.map (fun s => s.max_energy)).sum
  let active := (w.batteries.filter (fun d =>
    decide (d.status = "charging" ∨ d.status = "enroute" ∨
            d.status = "harvesting"))).length
  let idle := (w.batteries.filter (fun d =>
    decide (d.status = "at_earth" ∨ d.status = "standby"))).length
  let sample : Sample :=
    { tick := m.tick_count, total_energy := total_energy,
      capacity := total_capacity,
      utilization := total_energy / max total_capacity 1,
      active_drones := active, idle_drones := idle }
  let eh := appendBounded cfg.EQUILIBRIUM_WINDOW_TICKS m.energy_history sample
  let m1 : Monitor :=
    { m with energy_history := eh, tick_count := m.tick_count + 1 }
  if m1.tick_count % cfg.EQUILIBRIUM_CHECK_INTERVAL = 0 then
    check_equilibrium cfg w m1
  else m1

/-! ### The two tick loops (core/scheduler.py and core/equilibrum_monitor.py) -/

/-- The full process state: the world plus the two module-level singletons
ECONOMICS and MONITOR. -/
structure FullWorld where
  world : World
  econ : Econ := {}
  monitor : Monitor := {}
deriving DecidableEq

/-- One iteration of core/scheduler.py _loop — the loop that app.py
create_app starts: assign_pending, advance_tick, route, in that order.
Neither the economics engine nor the equilibrium monitor appears in this
loop. -/
def schedulerTick (cfg : Config) (dist : Dist) (cosf : ℚ → ℚ) (now_s : ℚ)
    (fw : FullWorld) : FullWorld :=
  let w3 := route cfg dist (advance_tick cfg cosf now_s (assign_pending cfg fw.world))
  { fw with world := w3 }

/-- One iteration of core/equilibrum_monitor.py _loop — a parallel module
with the same three stages followed by MONITOR.record_tick; app.py neither
imports nor starts it. -/
def monitorLoopTick (cfg : Config) (dist : Dist) (cosf : ℚ → ℚ) (now_s : ℚ)
    (fw : FullWorld) : FullWorld :=
  let w3 := route cfg dist (advance_tick cfg cosf now_s (assign_pending cfg fw.world))
  { world := w3, econ := fw.econ, monitor := record_tick cfg w3 fw.monitor }

/-- routes/tasks.py create_task: any Task (any priority string) is appended
to the FIFO queue with no validation beyond field presence. -/
def create_task (w : World) (t : Task) : World := { w with queue := w.queue ++ [t] }

/-- Every drone of the world satisfies P. -/
def AllDrones (P : Drone → Prop) (w : World) : Prop := ∀ d ∈ w.batteries, P d

/-- The mutation shapes route applies to a drone, bundled as closure
assumptions on a per-drone predicate P. -/
structure PresKit (cfg : Config) (dist : Dist) (P : Drone → Prop) : Prop where
  travel : ∀ (dest : Pos) (d : Drone), P d →
    (tick_travel cfg dest d).2 ≠ TravelRes.timeout → P (tick_travel cfg dest d).1
  recover : ∀ d, P (recoverFn cfg d)
  earthArrive : ∀ d, P d →
    P { d with
        status := "at_earth", battery := cfg.DRONE_PAYLOAD_MAX,
        reserve_battery := cfg.DRONE_RESERVE_MAX, target := none }
  toCharging : ∀ d, P d → P { d with status := "charging", dwell_ticks := 0 }
  toHarvesting : ∀ d, P d → P { d with status := "harvesting", dwell_ticks := 0 }
  dwell : ∀ d, P d → P { d with dwell_ticks := d.dwell_ticks + 1 }
  chargeStep : ∀ s d, P d → 0 < chargeAmount cfg s d →
    P { d with battery := d.battery - chargeAmount cfg s d }
  harvestStep : ∀ s d, P d → 0 < harvestAmount cfg s d →
    P { d with battery := d.battery + harvestAmount cfg s d }
  toEarthCourse : ∀ d, P d →
    P (set_course cfg dist d.home_base
        { d with status := "returning", target := some Target.earth })
  toSatCourse : ∀ (p : Pos) (sid : String) d, P d →
    P (set_course cfg dist p
        { d with status := "enroute", target := some (Target.sat sid) })

/-- The drone gauge bounds that do hold: payload within [0, max], reserve
no more than its max (the reserve lower bound is the part that fails). -/
def DroneGauges (cfg : Config) (d : Drone) : Prop :=
  0 ≤ d.battery ∧ d.battery ≤ cfg.DRONE_PAYLOAD_MAX ∧
  d.reserve_battery ≤ cfg.DRONE_RESERVE_MAX

/-- A drone in status enroute has an en-route counter strictly below the
timeout budget. -/
def EnrouteBudget (cfg : Config) (d : Drone) : Prop :=
  d.status = "enroute" → d.enroute_ticks < cfg.DRONE_ENROUTE_MAX_TICKS

/-- The states reachable from a seed world by orchestration ticks (the three
stages of the scheduler loop) and standalone mission selections. -/
inductive Reach (cfg : Config) (dist : Dist) : World → World → Prop where
  | refl (w : World) : Reach cfg dist w w
  | tick (w1 w2 : World) (cosf : ℚ → ℚ) (now_s : ℚ) (h : Reach cfg dist w1 w2) :
      Reach cfg dist w1
        (route cfg dist (advance_tick cfg cosf now_s (assign_pending cfg w2)))
  | select (w1 w2 : World) (did : String) (h : Reach cfg dist w1 w2) :
      Reach cfg dist w1 (choose_next_mission cfg dist w2 did)

/-! ### Concrete instances used in the claim analyses -/

/-- A trivial cosine stand-in (the daylight факtor is only exercised at
night points where the cosine is never consulted). -/
def cos0 : ℚ → ℚ := fun _ => 0

/-- A degenerate distance function: every pair of points at distance 0
(consistent with haversine on coincident points, the only pairs used). -/
def dist0 : Dist := fun _ _ => 0

/-- A distance function putting distinct points 10007 km apart (the
haversine distance from (0,0) to (0,90) is about 10007.5 km). -/
def distFar : Dist := fun p q => if p = q then 0 else 10007

def satC1 : Sat :=
  { satellite_id := "s1", energy_amount := 50, max_energy := 120,
    processing_capacity := 2000, solar_gen_rate := 35/100, position := ⟨0, 0⟩ }

def wC1 : World := { satellites := [satC1], batteries := [] }

def satC2 : Sat :=
  { satellite_id := "s1", energy_amount := 50, max_energy := 120,
    processing_capacity := 2000, solar_gen_rate := 0, position := ⟨0, 0⟩ }

def droC2 : Drone :=
  { battery_id := "d1", reserve_battery := 100, battery := 20,
    position := ⟨0, 0⟩, status := "charging", target := some (.sat "s1"),
    home_base := ⟨0, 0⟩ }

def fwC2 : FullWorld :=
  { world := { satellites := [satC2], batteries := [droC2],
               claims := [("s1", "d1")] } }

def fwC4 : FullWorld := { world := wC1 }

def droC3 : Drone :=
  { battery_id := "d1", reserve_battery := 5, battery := 0,
    position := ⟨0, 90⟩, status := "standby", target := none,
    home_base := ⟨0, 0⟩ }

def wC3 : World := { satellites := [], batteries := [droC3] }

def satC5h : Sat :=
  { satellite_id := "s1", energy_amount := 100, max_energy := 120,
    processing_capacity := 2000, solar_gen_rate := 0, position := ⟨0, 0⟩ }

def droC5 : Drone :=
  { battery_id := "d1", reserve_battery := 100, battery := 20,
    position := ⟨0, 0⟩, status := "charging", target := some (.sat "s1"),
    home_base := ⟨0, 0⟩ }

def wC5 : World :=
  { satellites := [satC2], batteries := [droC5], claims := [("s1", "d1")] }

def droC5h : Drone :=
  { battery_id := "d2", reserve_battery := 100, battery := 20,
    position := ⟨0, 0⟩, status := "harvesting", target := some (.sat "s1"),
    home_base := ⟨0, 0⟩ }

def wC5h : World :=
  { satellites := [satC5h], batteries := [droC5h], claims := [("s1", "d2")] }

def satC6 : Sat :=
  { satellite_id := "s1", energy_amount := 5, max_energy := 120,
    processing_capacity := 1000, position := ⟨0, 0⟩ }

def taskA : Task :=
  { task_id := "tA", energy_need := 10, processing_power_needed := 100,
    priority := "high" }

def taskB : Task :=
  { task_id := "tB", energy_need := 10, processing_power_needed := 100,
    priority := "low" }

def wC6 : World :=
  { satellites := [satC6], batteries := [], queue := [taskA, taskB] }

def tabC7 : List (String × String) := [("s1", "dA")]

def droC8 : Drone :=
  { battery_id := "d1", reserve_battery := 15, battery := 10,
    position := ⟨0, 0⟩, status := "charging", target := some (.sat "s1"),
    home_base := ⟨0, 0⟩ }

def wC8 : World :=
  { satellites := [satC2], batteries := [droC8], claims := [("s1", "d1")] }

/-- The multi-tick travel configuration (all other values as CONFIG). -/
def cfgMT : Config := { CONFIG with DRONE_TRAVEL_INSTANT := false }

def satC9 : Sat :=
  { satellite_id := "s1", energy_amount := 50, max_energy := 120,
    processing_capacity := 2000, solar_gen_rate := 0, position := ⟨10, 10⟩ }

def droC9 : Drone :=
  { battery_id := "d1", reserve_battery := 100, battery := 50,
    position := ⟨0, 0⟩, status := "enroute", target := some (.sat "s1"),
    eta_ticks := 3, enroute_ticks := 7, home_base := ⟨0, 0⟩ }

def wC9 : World :=
  { satellites := [satC9], batteries := [droC9], claims := [("s1", "d1")] }

def taskC10 : Task :=
  { task_id := "tX", energy_need := 10, processing_power_needed := 100,
    priority := "urgent" }

/-! ### Helper lemmas about the dict model -/

theorem lookupTab_setTab_self (t : List (String × String)) (k v : String) :
    lookupTab (setTab t k v) k = some v := by
  induction t with
  | nil => simp [setTab, lookupTab]
  | cons x xs ih =>
      by_cases h : x.1 = k
      · simp [setTab, h, lookupTab]
      · simp [setTab, h, lookupTab, ih]

theorem lookupTab_setTab_other (t : List (String × String)) (k v k2 : String)
    (h : k2 ≠ k) : lookupTab (setTab t k v) k2 = lookupTab t k2 := by
  induction t with
  | nil => simp [setTab, lookupTab, Ne.symm h]
  | cons x xs ih =>
      by_cases hx : x.1 = k
      · subst hx
        simp [setTab, lookupTab, Ne.symm h]
      · simp [setTab, hx, lookupTab, ih]

theorem lookupTab_eq_none_iff (t : List (String × String)) (k : String) :
    lookupTab t k = none ↔ k ∉ t.map Prod.fst := by
  induction t with
  | nil => simp [lookupTab]
  | cons x xs ih =>
      by_cases h : x.1 = k
      · simp [lookupTab, h]
      · have h2 : ¬ k = x.1 := Ne.symm h
        simp [lookupTab, h, ih, h2]

theorem lookupTab_eraseTab_self (t : List (String × String)) (k : String)
    (hnd : (t.map Prod.fst).Nodup) : lookupTab (eraseTab t k) k = none := by
  induction t with
  | nil => simp [eraseTab, lookupTab]
  | cons x xs ih =>
      simp only [List.map_cons, List.nodup_cons] at hnd
      by_cases h : x.1 = k
      · subst h
        simp only [eraseTab, if_pos rfl]
        exact (lookupTab_eq_none_iff xs x.1).2 hnd.1
      · simp [eraseTab, h, lookupTab, ih hnd.2]

theorem lookupTab_eraseTab_other (t : List (String × String)) (k k2 : String)
    (h : k2 ≠ k) : lookupTab (eraseTab t k) k2 = lookupTab t k2 := by
  induction t with
  | nil => simp [eraseTab]
  | cons x xs ih =>
      by_cases hx : x.1 = k
      · subst hx
        simp [eraseTab, lookupTab, Ne.symm h]
      · simp [eraseTab, hx, lookupTab, ih]

theorem keys_setTab (t : List (String × String)) (k v : String) :
    (setTab t k v).map Prod.fst =
      if k ∈ t.map Prod.fst then t.map Prod.fst else t.map Prod.fst ++ [k] := by
  induction t with
  | nil => simp [setTab]
  | cons x xs ih =>
      by_cases h : x.1 = k
      · simp [setTab, h]
      · have h2 : ¬ k = x.1 := Ne.symm h
        simp only [setTab, if_neg h, List.map_cons, ih]
        by_cases hk : k ∈ xs.map Prod.fst
        · simp [hk, h2]
        · simp [hk, h2]

theorem nodup_keys_setTab (t : List (String × String)) (k v : String)
    (hnd : (t.map Prod.fst).Nodup) : ((setTab t k v).map Prod.fst).Nodup := by
  rw [keys_setTab]
  by_cases hk : k ∈ t.map Prod.fst
  · simpa [hk]
  · simpa [hk, List.nodup_append] using hnd

/-- release_sat never leaves the caller as the recorded owner. -/
theorem release_sat_lookup_ne (t : List (String × String)) (sid did : String)
    (hnd : (t.map Prod.fst).Nodup) :
    lookupTab (release_sat t sid did) sid ≠ some did := by
  unfold release_sat
  by_cases h : lookupTab t sid = some did
  · rw [if_pos h, lookupTab_eraseTab_self t sid hnd]
    simp
  · rw [if_neg h]
    exact h

/-! ### Helper lemmas about world updates -/

theorem batteries_updSat (w : World) (sid : String) (f : Sat → Sat) :
    (updSat w sid f).batteries = w.batteries := rfl

theorem satellites_updDrone (w : World) (did : String) (f : Drone → Drone) :
    (updDrone w did f).satellites = w.satellites := rfl

theorem findDrone_updSat (w : World) (sid did : String) (f : Sat → Sat) :
    findDrone (updSat w sid f) did = findDrone w did := rfl

theorem findSat_updDrone (w : World) (did sid : String) (f : Drone → Drone) :
    findSat (updDrone w did f) sid = findSat w sid := rfl

theorem find?_replaceFirst_self {α : Type} (key : α → String) (k : String)
    (f : α → α) (hf : ∀ x, key x = k → key (f x) = key x) (l : List α) :
    (replaceFirst key k f l).find? (fun x => key x = k) =
      (l.find? (fun x => key x = k)).map f := by
  induction l with
  | nil => simp [replaceFirst]
  | cons x xs ih =>
      by_cases h : key x = k
      · rw [replaceFirst, if_pos h, List.find?_cons_of_pos _ (by simp [hf x h, h]),
          List.find?_cons_of_pos _ (by simp [h])]
        simp
      · rw [replaceFirst, if_neg h, List.find?_cons_of_neg _ (by simp [h]),
          List.find?_cons_of_neg _ (by simp [h]), ih]

theorem findDrone_updDrone (w : World) (did : String) (f : Drone → Drone)
    (hf : ∀ x, x.battery_id = did → (f x).battery_id = x.battery_id) :
    findDrone (updDrone w did f) did = (findDrone w did).map f := by
  unfold findDrone updDrone
  exact find?_replaceFirst_self (fun d => d.battery_id) did f hf w.batteries

theorem findSat_updSat (w : World) (sid : String) (f : Sat → Sat)
    (hf : ∀ x, x.satellite_id = sid → (f x).satellite_id = x.satellite_id) :
    findSat (updSat w sid f) sid = (findSat w sid).map f := by
  unfold findSat updSat
  exact find?_replaceFirst_self (fun s => s.satellite_id) sid f hf w.satellites

theorem findDrone_claims (w : World) (c : List (String × String)) (did : String) :
    findDrone { w with claims := c } did = findDrone w did := rfl

theorem findDrone_release (w : World) (d : Drone) (did : String) :
    findDrone (release_current_claim w d) did = findDrone w did := by
  unfold release_current_claim
  cases targetSatId d.target <;> rfl

theorem claims_release_current_claim_of_sat (w : World) (d : Drone)
    (sid : String) (h : d.target = some (Target.sat sid)) :
    (release_current_claim w d).claims = release_sat w.claims sid d.battery_id := by
  unfold release_current_claim
  rw [h]
  rfl

theorem batteries_release (w : World) (d : Drone) :
    (release_current_claim w d).batteries = w.batteries := by
  unfold release_current_claim
  cases targetSatId d.target <;> rfl

/-! ### Per-drone invariant preservation through the orchestrator -/


theorem AllDrones_claims {P : Drone → Prop} {w : World}
    {c : List (String × String)} (h : AllDrones P w) :
    AllDrones P { w with claims := c } := h

theorem AllDrones_updSat {P : Drone → Prop} {w : World} {sid : String}
    {f : Sat → Sat} (h : AllDrones P w) : AllDrones P (updSat w sid f) := h

theorem AllDrones_release {P : Drone → Prop} {w : World} {d : Drone}
    (h : AllDrones P w) : AllDrones P (release_current_claim w d) := by
  unfold AllDrones
  rw [batteries_release]
  exact h

theorem replaceFirst_pres {α : Type} (key : α → String) (Q : α → Prop)
    (k : String) (f : α → α) (l : List α) (h : ∀ x ∈ l, Q x)
    (hf : ∀ x, l.find? (fun y => key y = k) = some x → Q (f x)) :
    ∀ x ∈ replaceFirst key k f l, Q x := by
  induction l with
  | nil => simp [replaceFirst]
  | cons a as ih =>
      by_cases hk : key a = k
      · rw [replaceFirst, if_pos hk]
        intro x hx
        rcases List.mem_cons.1 hx with h1 | h2
        · subst h1
          exact hf a (by rw [List.find?_cons_of_pos _ (by simp [hk])])
        · exact h x (List.mem_cons_of_mem _ h2)
      · rw [replaceFirst, if_neg hk]
        intro x hx
        rcases List.mem_cons.1 hx with h1 | h2
        · subst h1
          exact h x (List.mem_cons_self _ _)
        · exact ih (fun y hy => h y (List.mem_cons_of_mem _ hy))
            (fun y hy => hf y
              (by rw [List.find?_cons_of_neg _ (by simp [hk])]; exact hy))
            x h2

theorem AllDrones_updDrone {P : Drone → Prop} {w : World} {did : String}
    {f : Drone → Drone} (h : AllDrones P w)
    (hf : ∀ d, findDrone w did = some d → P (f d)) :
    AllDrones P (updDrone w did f) := by
  have hf2 : ∀ x, w.batteries.find? (fun y => y.battery_id = did) = some x →
      P (f x) := hf
  exact replaceFirst_pres (fun d => d.battery_id) P did f w.batteries h hf2

theorem mem_of_findDrone {w : World} {did : String} {d : Drone}
    (h : findDrone w did = some d) : d ∈ w.batteries :=
  List.mem_of_find?_eq_some h

theorem findDrone_upd_dwell (w : World) (did : String) :
    findDrone (updDrone w did
      (fun d0 => { d0 with dwell_ticks := d0.dwell_ticks + 1 })) did =
    (findDrone w did).map (fun d0 => { d0 with dwell_ticks := d0.dwell_ticks + 1 }) :=
  findDrone_updDrone w did _ (fun _ _ => rfl)


variable {cfg : Config} {dist : Dist} {P : Drone → Prop}

theorem goToEarth_pres (kit : PresKit cfg dist P) {w : World} {did : String}
    (h : AllDrones P w) : AllDrones P (goToEarth cfg dist w did) := by
  unfold goToEarth
  split
  · exact h
  · refine AllDrones_updDrone (AllDrones_release h) (fun dd hdd => ?_)
    rw [findDrone_release] at hdd
    exact kit.toEarthCourse dd (h dd (mem_of_findDrone hdd))

theorem goEnrouteTo_pres (kit : PresKit cfg dist P) {w : World} {did : String}
    {t : Sat} (h : AllDrones P w) : AllDrones P (goEnrouteTo cfg dist w did t) := by
  unfold goEnrouteTo
  exact AllDrones_updDrone h
    (fun dd hdd => kit.toSatCourse t.position t.satellite_id dd
      (h dd (mem_of_findDrone hdd)))

theorem chooseHarvestOrEarth_pres (kit : PresKit cfg dist P) {w : World}
    {did : String} {d : Drone} (h : AllDrones P w) :
    AllDrones P (chooseHarvestOrEarth cfg dist w did d) := by
  unfold chooseHarvestOrEarth
  split
  · split
    · exact goEnrouteTo_pres kit (AllDrones_claims h)
    · exact goToEarth_pres kit h
  · exact goToEarth_pres kit h

theorem choose_next_mission_pres (kit : PresKit cfg dist P) {w : World}
    {did : String} (h : AllDrones P w) :
    AllDrones P (choose_next_mission cfg dist w did) := by
  unfold choose_next_mission
  split
  · exact h
  · split
    · exact goToEarth_pres kit h
    · split
      · split
        · split
          · exact goEnrouteTo_pres kit (AllDrones_claims h)
          · exact chooseHarvestOrEarth_pres kit h
        · exact chooseHarvestOrEarth_pres kit h
      · exact chooseHarvestOrEarth_pres kit h

theorem travelToEarth_pres (kit : PresKit cfg dist P) {w : World}
    {did : String} {d : Drone} (h : AllDrones P w) (hd : P d) :
    AllDrones P (travelToEarth cfg dist w did d) := by
  unfold travelToEarth
  split
  · next d1 heq =>
      have h2 := kit.travel d.home_base d hd (by rw [heq]; simp)
      rw [heq] at h2
      exact choose_next_mission_pres kit
        (AllDrones_updDrone h (fun dd _ => kit.earthArrive d1 h2))
  · next d1 heq =>
      exact AllDrones_updDrone (AllDrones_release h) (fun dd _ => kit.recover d1)
  · next d1 heq =>
      refine AllDrones_updDrone h (fun dd _ => ?_)
      have h2 := kit.travel d.home_base d hd (by rw [heq]; simp)
      rw [heq] at h2
      exact h2

theorem travelToSat_pres (kit : PresKit cfg dist P) {w : World}
    {did sid : String} {d : Drone} (h : AllDrones P w) (hd : P d) :
    AllDrones P (travelToSat cfg dist w did d sid) := by
  unfold travelToSat
  split
  · exact choose_next_mission_pres kit (AllDrones_release h)
  · next sat heqs =>
      split
      · next d1 heq =>
          have h2 := kit.travel sat.position d hd (by rw [heq]; simp)
          rw [heq] at h2
          have hw1 : AllDrones P (updDrone w did (fun _ => d1)) :=
            AllDrones_updDrone h (fun dd _ => h2)
          split
          · exact AllDrones_updDrone hw1
              (fun dd hdd => kit.toCharging dd (hw1 dd (mem_of_findDrone hdd)))
          · split
            · exact AllDrones_updDrone hw1
                (fun dd hdd => kit.toHarvesting dd (hw1 dd (mem_of_findDrone hdd)))
            · exact choose_next_mission_pres kit (AllDrones_release hw1)
      · next d1 heq =>
          exact AllDrones_updDrone (AllDrones_release h) (fun dd _ => kit.recover d1)
      · next d1 heq =>
          refine AllDrones_updDrone h (fun dd _ => ?_)
          have h2 := kit.travel sat.position d hd (by rw [heq]; simp)
          rw [heq] at h2
          exact h2

theorem chargingBlock_pres (kit : PresKit cfg dist P) {w : World}
    {did : String} {d : Drone} (h : AllDrones P w)
    (hfd : findDrone w did = some d) :
    AllDrones P (chargingBlock cfg dist w did d) := by
  have hd : P d := h d (mem_of_findDrone hfd)
  have hw1 : AllDrones P (updDrone w did
      (fun d0 => { d0 with dwell_ticks := d0.dwell_ticks + 1 })) :=
    AllDrones_updDrone h
      (fun dd hdd => kit.dwell dd (h dd (mem_of_findDrone hdd)))
  unfold chargingBlock
  split
  · exact choose_next_mission_pres kit h
  · split
    · exact choose_next_mission_pres kit (AllDrones_release h)
    · next sat heqs =>
        split
        · exact choose_next_mission_pres kit (AllDrones_release hw1)
        · split
          · next hg =>
              refine AllDrones_updSat
                (AllDrones_updDrone hw1 (fun dd hdd => ?_))
              rw [findDrone_upd_dwell, hfd] at hdd
              have hdd2 : { d with dwell_ticks := d.dwell_ticks + 1 } = dd := by
                simpa using hdd
              subst hdd2
              exact kit.chargeStep sat _ (kit.dwell d hd) hg
          · exact hw1

theorem harvestingBlock_pres (kit : PresKit cfg dist P) {w : World}
    {did : String} {d : Drone} (h : AllDrones P w)
    (hfd : findDrone w did = some d) :
    AllDrones P (harvestingBlock cfg dist w did d) := by
  have hd : P d := h d (mem_of_findDrone hfd)
  have hw1 : AllDrones P (updDrone w did
      (fun d0 => { d0 with dwell_ticks := d0.dwell_ticks + 1 })) :=
    AllDrones_updDrone h
      (fun dd hdd => kit.dwell dd (h dd (mem_of_findDrone hdd)))
  unfold harvestingBlock
  split
  · exact choose_next_mission_pres kit h
  · split
    · exact choose_next_mission_pres kit (AllDrones_release h)
    · next sat heqs =>
        split
        · exact choose_next_mission_pres kit (AllDrones_release hw1)
        · split
          · next hg =>
              refine AllDrones_updSat
                (AllDrones_updDrone hw1 (fun dd hdd => ?_))
              rw [findDrone_upd_dwell, hfd] at hdd
              have hdd2 : { d with dwell_ticks := d.dwell_ticks + 1 } = dd := by
                simpa using hdd
              subst hdd2
              exact kit.harvestStep sat _ (kit.dwell d hd) hg
          · exact hw1

theorem processDrone_pres (kit : PresKit cfg dist P) {w : World}
    {did : String} (h : AllDrones P w) :
    AllDrones P (processDrone cfg dist w did) := by
  unfold processDrone
  split
  · exact h
  · next d heq =>
      have hd : P d := h d (mem_of_findDrone heq)
      split
      · exact h
      · split
        · split
          · exact travelToEarth_pres kit h hd
          · exact travelToSat_pres kit h hd
          · exact h
        · split
          · exact chargingBlock_pres kit h heq
          · split
            · exact harvestingBlock_pres kit h heq
            · split
              · exact choose_next_mission_pres kit h
              · exact h

theorem dispatchOne_pres (kit : PresKit cfg dist P) {acc : World × List String}
    {sat : Sat} (h : AllDrones P acc.1) :
    AllDrones P (dispatchOne cfg dist acc sat).1 := by
  unfold dispatchOne
  split
  · exact h
  · split
    · exact h
    · split
      · exact h
      · split
        · exact goEnrouteTo_pres kit (AllDrones_claims h)
        · exact h

theorem foldl_dispatchOne_pres (kit : PresKit cfg dist P) :
    ∀ (l : List Sat) (acc : World × List String), AllDrones P acc.1 →
      AllDrones P (l.foldl (dispatchOne cfg dist) acc).1 := by
  intro l
  induction l with
  | nil => intro acc h; exact h
  | cons s ss ih =>
      intro acc h
      exact ih _ (dispatchOne_pres kit h)

theorem auto_dispatch_pres (kit : PresKit cfg dist P) {w : World}
    (h : AllDrones P w) : AllDrones P (auto_dispatch cfg dist w) := by
  unfold auto_dispatch
  split
  · exact h
  · split
    · exact h
    · exact foldl_dispatchOne_pres kit _ _ h

theorem foldl_processDrone_pres (kit : PresKit cfg dist P) :
    ∀ (ids : List String) (w : World), AllDrones P w →
      AllDrones P (ids.foldl (processDrone cfg dist) w) := by
  intro ids
  induction ids with
  | nil => intro w h; exact h
  | cons i is ih =>
      intro w h
      exact ih _ (processDrone_pres kit h)

/-- Every per-drone predicate closed under the PresKit mutation shapes is an
invariant of the route pass. -/
theorem route_pres (kit : PresKit cfg dist P) {w : World}
    (h : AllDrones P w) : AllDrones P (route cfg dist w) :=
  foldl_processDrone_pres kit _ _ (auto_dispatch_pres kit h)

theorem batteries_assign_pending (w : World) :
    (assign_pending cfg w).batteries = w.batteries := rfl

theorem batteries_advance_tick (cosf : ℚ → ℚ) (now_s : ℚ) (w : World) :
    (advance_tick cfg cosf now_s w).batteries = w.batteries := by
  unfold advance_tick
  generalize (w.satellites.map (fun s => s.satellite_id)) = ids
  induction ids generalizing w with
  | nil => rfl
  | cons i is ih =>
      simp only [List.foldl_cons]
      cases findSat w i with
      | none => exact ih w
      | some s =>
          rw [ih]
          rfl
/-! ### The gauge-bound and en-route-budget invariants -/


theorem chargeAmount_le_battery (cfg : Config) (s : Sat) (d : Drone) :
    chargeAmount cfg s d ≤ d.battery :=
  le_trans (min_le_right _ _) (min_le_left _ _)

theorem chargeAmount_le_deficit (cfg : Config) (s : Sat) (d : Drone) :
    chargeAmount cfg s d ≤ s.max_energy - s.energy_amount :=
  le_trans (min_le_right _ _) (min_le_right _ _)

theorem harvestAmount_le_free (cfg : Config) (s : Sat) (d : Drone) :
    harvestAmount cfg s d ≤ cfg.DRONE_PAYLOAD_MAX - d.battery :=
  le_trans (min_le_right _ _) (min_le_left _ _)

theorem harvestAmount_le_avail (cfg : Config) (s : Sat) (d : Drone) :
    harvestAmount cfg s d ≤ max 0 (s.energy_amount - cfg.HARVEST_FLOOR) :=
  le_trans (min_le_right _ _) (min_le_right _ _)

theorem tick_travel_gauges (cfg : Config) (dest : Pos) (d : Drone) :
    ((tick_travel cfg dest d).1.battery = d.battery ∧
     (tick_travel cfg dest d).1.reserve_battery = d.reserve_battery) := by
  unfold tick_travel arrive_at
  split
  · exact ⟨rfl, rfl⟩
  · split
    · split
      · exact ⟨rfl, rfl⟩
      · split
        · exact ⟨rfl, rfl⟩
        · exact ⟨rfl, rfl⟩
    · exact ⟨rfl, rfl⟩

/-- The gauge bounds are closed under every mutation shape of route. -/
theorem gaugesKit (cfg : Config) (dist : Dist)
    (h1 : 0 ≤ cfg.DRONE_PAYLOAD_MAX)
    (h3 : ∀ p q, 0 ≤ dist p q) (h4 : 0 ≤ cfg.DRONE_RESERVE_PER_KM) :
    PresKit cfg dist (DroneGauges cfg) where
  travel := by
    intro dest d hP _
    have hb := tick_travel_gauges cfg dest d
    exact ⟨hb.1 ▸ hP.1, hb.1 ▸ hP.2.1, hb.2 ▸ hP.2.2⟩
  recover := fun d => ⟨h1, le_refl _, le_refl _⟩
  earthArrive := fun d _ => ⟨h1, le_refl _, le_refl _⟩
  toCharging := fun d hP => hP
  toHarvesting := fun d hP => hP
  dwell := fun d hP => hP
  chargeStep := by
    intro s d hP hg
    refine ⟨?_, ?_, hP.2.2⟩
    · have := chargeAmount_le_battery cfg s d
      show 0 ≤ d.battery - chargeAmount cfg s d
      linarith
    · show d.battery - chargeAmount cfg s d ≤ cfg.DRONE_PAYLOAD_MAX
      have := hP.2.1
      linarith
  harvestStep := by
    intro s d hP hg
    refine ⟨?_, ?_, hP.2.2⟩
    · show 0 ≤ d.battery + harvestAmount cfg s d
      have := hP.1
      linarith
    · have := harvestAmount_le_free cfg s d
      show d.battery + harvestAmount cfg s d ≤ cfg.DRONE_PAYLOAD_MAX
      linarith
  toEarthCourse := by
    intro d hP
    refine ⟨hP.1, hP.2.1, ?_⟩
    show d.reserve_battery - dist d.position d.home_base * cfg.DRONE_RESERVE_PER_KM ≤
      cfg.DRONE_RESERVE_MAX
    have hc : 0 ≤ dist d.position d.home_base * cfg.DRONE_RESERVE_PER_KM :=
      mul_nonneg (h3 _ _) h4
    have := hP.2.2
    linarith
  toSatCourse := by
    intro p sid d hP
    refine ⟨hP.1, hP.2.1, ?_⟩
    show d.reserve_battery - dist d.position p * cfg.DRONE_RESERVE_PER_KM ≤
      cfg.DRONE_RESERVE_MAX
    have hc : 0 ≤ dist d.position p * cfg.DRONE_RESERVE_PER_KM :=
      mul_nonneg (h3 _ _) h4
    have := hP.2.2
    linarith


/-- The en-route budget is closed under every mutation shape of route. -/
theorem budgetKit (cfg : Config) (dist : Dist)
    (hmax : 0 < cfg.DRONE_ENROUTE_MAX_TICKS) :
    PresKit cfg dist (EnrouteBudget cfg) where
  travel := by
    intro dest d hP hne
    unfold tick_travel at hne ⊢
    by_cases hI : cfg.DRONE_TRAVEL_INSTANT = true
    · rw [if_pos hI]
      intro _
      exact hmax
    · rw [if_neg hI] at hne ⊢
      by_cases hE : d.eta_ticks > 0
      · rw [if_pos hE] at hne ⊢
        by_cases hT : d.enroute_ticks + 1 ≥ cfg.DRONE_ENROUTE_MAX_TICKS
        · rw [if_pos hT] at hne
          exact absurd rfl hne
        · rw [if_neg hT] at hne ⊢
          by_cases hA : d.eta_ticks - 1 = 0
          · rw [if_pos hA]
            intro _
            exact hmax
          · rw [if_neg hA]
            intro _
            exact lt_of_not_le hT
      · rw [if_neg hE]
        exact hP
  recover := by
    intro d h
    simp [recoverFn] at h
  earthArrive := by
    intro d _ h
    simp at h
  toCharging := by
    intro d _ h
    simp at h
  toHarvesting := by
    intro d _ h
    simp at h
  dwell := fun d hP => hP
  chargeStep := fun s d hP _ => hP
  harvestStep := fun s d hP _ => hP
  toEarthCourse := by
    intro d _ h
    simp [set_course] at h
  toSatCourse := by
    intro p sid d _ _
    show (0 : Int) < cfg.DRONE_ENROUTE_MAX_TICKS
    exact hmax


/-! ### Observable equations for the charging and harvesting branches -/

theorem satellites_release (w : World) (d : Drone) :
    (release_current_claim w d).satellites = w.satellites := by
  unfold release_current_claim
  cases targetSatId d.target <;> rfl

theorem chargeAmount_dwell (cfg : Config) (s : Sat) (d : Drone) :
    chargeAmount cfg s { d with dwell_ticks := d.dwell_ticks + 1 } =
      chargeAmount cfg s d := rfl

theorem harvestAmount_dwell (cfg : Config) (s : Sat) (d : Drone) :
    harvestAmount cfg s { d with dwell_ticks := d.dwell_ticks + 1 } =
      harvestAmount cfg s d := rfl

theorem processDrone_status_charging (cfg : Config) (dist : Dist) (w : World)
    (did : String) (d : Drone) (hfd : findDrone w did = some d)
    (hst : d.status = "charging") :
    processDrone cfg dist w did = chargingBlock cfg dist w did d := by
  simp only [processDrone, hfd, hst]
  simp

theorem processDrone_status_harvesting (cfg : Config) (dist : Dist) (w : World)
    (did : String) (d : Drone) (hfd : findDrone w did = some d)
    (hst : d.status = "harvesting") :
    processDrone cfg dist w did = harvestingBlock cfg dist w did d := by
  simp only [processDrone, hfd, hst]
  simp

theorem chargingBlock_transfer (cfg : Config) (dist : Dist) (w : World)
    (did : String) (d : Drone) (sid : String) (s : Sat)
    (htg : d.target = some (Target.sat sid))
    (hs : findSat w sid = some s)
    (hstop : chargingStopReason cfg s { d with dwell_ticks := d.dwell_ticks + 1 } = none)
    (hg : 0 < chargeAmount cfg s d) (hfd : findDrone w did = some d) :
    (findDrone (chargingBlock cfg dist w did d) did).map (fun x => x.battery) =
      some (d.battery - chargeAmount cfg s d) ∧
    (findSat (chargingBlock cfg dist w did d) sid).map (fun x => x.energy_amount) =
      some (s.energy_amount + chargeAmount cfg s d) := by
  have he : targetSatId d.target = some sid := by rw [htg]; rfl
  have hcb : chargingBlock cfg dist w did d =
      updSat
        (updDrone
          (updDrone w did (fun d0 => { d0 with dwell_ticks := d0.dwell_ticks + 1 }))
          did (fun d0 =>
            { d0 with battery := d0.battery -
                chargeAmount cfg s { d with dwell_ticks := d.dwell_ticks + 1 } }))
        sid (fun s0 =>
          { s0 with energy_amount := s0.energy_amount +
              chargeAmount cfg s { d with dwell_ticks := d.dwell_ticks + 1 } }) := by
    simp only [chargingBlock, he, hs, hstop]
    rw [if_pos (show 0 < chargeAmount cfg s { d with dwell_ticks := d.dwell_ticks + 1 } from hg)]
  rw [hcb]
  constructor
  · rw [findDrone_updSat,
      findDrone_updDrone _ _ (fun d0 =>
        { d0 with battery := d0.battery -
            chargeAmount cfg s { d with dwell_ticks := d.dwell_ticks + 1 } })
        (fun _ _ => rfl),
      findDrone_upd_dwell, hfd]
    simp [chargeAmount_dwell]
  · rw [findSat_updSat _ _ (fun s0 =>
        { s0 with energy_amount := s0.energy_amount +
            chargeAmount cfg s { d with dwell_ticks := d.dwell_ticks + 1 } })
        (fun _ _ => rfl)]
    have h2 : findSat (updDrone
        (updDrone w did (fun d0 => { d0 with dwell_ticks := d0.dwell_ticks + 1 }))
        did (fun d0 =>
          { d0 with battery := d0.battery -
              chargeAmount cfg s { d with dwell_ticks := d.dwell_ticks + 1 } })) sid =
        some s := hs
    rw [h2]
    simp [chargeAmount_dwell]

theorem harvestingBlock_transfer (cfg : Config) (dist : Dist) (w : World)
    (did : String) (d : Drone) (sid : String) (s : Sat)
    (htg : d.target = some (Target.sat sid))
    (hs : findSat w sid = some s)
    (hstop : harvestStopReason cfg s { d with dwell_ticks := d.dwell_ticks + 1 } = none)
    (hg : 0 < harvestAmount cfg s d) (hfd : findDrone w did = some d) :
    (findDrone (harvestingBlock cfg dist w did d) did).map (fun x => x.battery) =
      some (d.battery + harvestAmount cfg s d) ∧
    (findSat (harvestingBlock cfg dist w did d) sid).map (fun x => x.energy_amount) =
      some (s.energy_amount - harvestAmount cfg s d) := by
  have he : targetSatId d.target = some sid := by rw [htg]; rfl
  have hcb : harvestingBlock cfg dist w did d =
      updSat
        (updDrone
          (updDrone w did (fun d0 => { d0 with dwell_ticks := d0.dwell_ticks + 1 }))
          did (fun d0 =>
            { d0 with battery := d0.battery +
                harvestAmount cfg s { d with dwell_ticks := d.dwell_ticks + 1 } }))
        sid (fun s0 =>
          { s0 with energy_amount := s0.energy_amount -
              harvestAmount cfg s { d with dwell_ticks := d.dwell_ticks + 1 } }) := by
    simp only [harvestingBlock, he, hs, hstop]
    rw [if_pos (show 0 < harvestAmount cfg s { d with dwell_ticks := d.dwell_ticks + 1 } from hg)]
  rw [hcb]
  constructor
  · rw [findDrone_updSat,
      findDrone_updDrone _ _ (fun d0 =>
        { d0 with battery := d0.battery +
            harvestAmount cfg s { d with dwell_ticks := d.dwell_ticks + 1 } })
        (fun _ _ => rfl),
      findDrone_upd_dwell, hfd]
    simp [harvestAmount_dwell]
  · rw [findSat_updSat _ _ (fun s0 =>
        { s0 with energy_amount := s0.energy_amount -
            harvestAmount cfg s { d with dwell_ticks := d.dwell_ticks + 1 } })
        (fun _ _ => rfl)]
    have h2 : findSat (updDrone
        (updDrone w did (fun d0 => { d0 with dwell_ticks := d0.dwell_ticks + 1 }))
        did (fun d0 =>
          { d0 with battery := d0.battery +
              harvestAmount cfg s { d with dwell_ticks := d.dwell_ticks + 1 } })) sid =
        some s := hs
    rw [h2]
    simp [harvestAmount_dwell]

theorem goToEarth_obs (cfg : Config) (dist : Dist) (w : World) (did : String)
    (d : Drone) (hfd : findDrone w did = some d) :
    findDrone (goToEarth cfg dist w did) did =
      some (set_course cfg dist d.home_base
        { d with status := "returning", target := some Target.earth }) ∧
    (goToEarth cfg dist w did).satellites = w.satellites := by
  constructor
  · simp only [goToEarth, hfd]
    rw [findDrone_updDrone _ _ (fun d0 => set_course cfg dist d0.home_base
        { d0 with status := "returning", target := some Target.earth })
        (fun _ _ => rfl),
      findDrone_release, hfd]
    rfl
  · simp only [goToEarth, hfd]
    rw [satellites_updDrone, satellites_release]

theorem goEnrouteTo_obs (cfg : Config) (dist : Dist) (w : World) (did : String)
    (t : Sat) (d : Drone) (hfd : findDrone w did = some d) :
    findDrone (goEnrouteTo cfg dist w did t) did =
      some (set_course cfg dist t.position
        { d with status := "enroute", target := some (Target.sat t.satellite_id) }) ∧
    (goEnrouteTo cfg dist w did t).satellites = w.satellites := by
  constructor
  · unfold goEnrouteTo
    rw [findDrone_updDrone _ _ (fun d0 => set_course cfg dist t.position
        { d0 with status := "enroute", target := some (Target.sat t.satellite_id) })
        (fun _ _ => rfl), hfd]
    rfl
  · rfl

theorem chooseHarvestOrEarth_obs (cfg : Config) (dist : Dist) (w : World)
    (did : String) (d dd : Drone) (hfd : findDrone w did = some dd) :
    ∃ d2, findDrone (chooseHarvestOrEarth cfg dist w did d) did = some d2 ∧
      (d2.status = "returning" ∨ d2.status = "enroute") ∧
      d2.battery = dd.battery ∧
      (chooseHarvestOrEarth cfg dist w did d).satellites = w.satellites := by
  unfold chooseHarvestOrEarth
  split
  · split
    · next t _ _ =>
        obtain ⟨h1, h2⟩ := goEnrouteTo_obs cfg dist _ did t dd hfd
        exact ⟨_, h1, Or.inr rfl, rfl, h2⟩
    · obtain ⟨h1, h2⟩ := goToEarth_obs cfg dist w did dd hfd
      exact ⟨_, h1, Or.inl rfl, rfl, h2⟩
  · obtain ⟨h1, h2⟩ := goToEarth_obs cfg dist w did dd hfd
    exact ⟨_, h1, Or.inl rfl, rfl, h2⟩

theorem choose_next_mission_obs (cfg : Config) (dist : Dist) (w : World)
    (did : String) (d : Drone) (hfd : findDrone w did = some d) :
    ∃ d2, findDrone (choose_next_mission cfg dist w did) did = some d2 ∧
      (d2.status = "returning" ∨ d2.status = "enroute") ∧
      d2.battery = d.battery ∧
      (choose_next_mission cfg dist w did).satellites = w.satellites := by
  simp only [choose_next_mission, hfd]
  split
  · obtain ⟨h1, h2⟩ := goToEarth_obs cfg dist w did d hfd
    exact ⟨_, h1, Or.inl rfl, rfl, h2⟩
  · split
    · split
      · split
        · next t _ _ =>
            obtain ⟨h1, h2⟩ := goEnrouteTo_obs cfg dist _ did t d hfd
            exact ⟨_, h1, Or.inr rfl, rfl, h2⟩
        · exact chooseHarvestOrEarth_obs cfg dist w did d d hfd
      · exact chooseHarvestOrEarth_obs cfg dist w did d d hfd
    · exact chooseHarvestOrEarth_obs cfg dist w did d d hfd

theorem chargingBlock_stop (cfg : Config) (dist : Dist) (w : World)
    (did : String) (d : Drone) (sid : String) (s : Sat) (r : String)
    (htg : d.target = some (Target.sat sid))
    (hs : findSat w sid = some s)
    (hfd : findDrone w did = some d)
    (hstop : chargingStopReason cfg s { d with dwell_ticks := d.dwell_ticks + 1 } =
      some r) :
    ∃ d2, findDrone (chargingBlock cfg dist w did d) did = some d2 ∧
      (d2.status = "returning" ∨ d2.status = "enroute") ∧
      d2.battery = d.battery ∧
      (findSat (chargingBlock cfg dist w did d) sid).map (fun x => x.energy_amount) =
        some s.energy_amount := by
  have he : targetSatId d.target = some sid := by rw [htg]; rfl
  have hcb : chargingBlock cfg dist w did d =
      choose_next_mission cfg dist
        (release_current_claim
          (updDrone w did (fun d0 => { d0 with dwell_ticks := d0.dwell_ticks + 1 }))
          { d with dwell_ticks := d.dwell_ticks + 1 }) did := by
    simp only [chargingBlock, he, hs, hstop]
  have hfd1 : findDrone
      (release_current_claim
        (updDrone w did (fun d0 => { d0 with dwell_ticks := d0.dwell_ticks + 1 }))
        { d with dwell_ticks := d.dwell_ticks + 1 }) did =
      some { d with dwell_ticks := d.dwell_ticks + 1 } := by
    rw [findDrone_release, findDrone_upd_dwell, hfd]
    rfl
  obtain ⟨d2, h1, h2, h3, h4⟩ := choose_next_mission_obs cfg dist _ did _ hfd1
  have hss : (chargingBlock cfg dist w did d).satellites = w.satellites := by
    rw [hcb, h4, satellites_release, satellites_updDrone]
  refine ⟨d2, by rw [hcb]; exact h1, h2, h3, ?_⟩
  have hfs : findSat (chargingBlock cfg dist w did d) sid = findSat w sid := by
    unfold findSat
    rw [hss]
  rw [hfs, hs]
  rfl

theorem harvestingBlock_stop (cfg : Config) (dist : Dist) (w : World)
    (did : String) (d : Drone) (sid : String) (s : Sat) (r : String)
    (htg : d.target = some (Target.sat sid))
    (hs : findSat w sid = some s)
    (hfd : findDrone w did = some d)
    (hstop : harvestStopReason cfg s { d with dwell_ticks := d.dwell_ticks + 1 } =
      some r) :
    ∃ d2, findDrone (harvestingBlock cfg dist w did d) did = some d2 ∧
      (d2.status = "returning" ∨ d2.status = "enroute") ∧
      d2.battery = d.battery ∧
      (findSat (harvestingBlock cfg dist w did d) sid).map (fun x => x.energy_amount) =
        some s.energy_amount := by
  have he : targetSatId d.target = some sid := by rw [htg]; rfl
  have hcb : harvestingBlock cfg dist w did d =
      choose_next_mission cfg dist
        (release_current_claim
          (updDrone w did (fun d0 => { d0 with dwell_ticks := d0.dwell_ticks + 1 }))
          { d with dwell_ticks := d.dwell_ticks + 1 }) did := by
    simp only [harvestingBlock, he, hs, hstop]
  have hfd1 : findDrone
      (release_current_claim
        (updDrone w did (fun d0 => { d0 with dwell_ticks := d0.dwell_ticks + 1 }))
        { d with dwell_ticks := d.dwell_ticks + 1 }) did =
      some { d with dwell_ticks := d.dwell_ticks + 1 } := by
    rw [findDrone_release, findDrone_upd_dwell, hfd]
    rfl
  obtain ⟨d2, h1, h2, h3, h4⟩ := choose_next_mission_obs cfg dist _ did _ hfd1
  have hss : (harvestingBlock cfg dist w did d).satellites = w.satellites := by
    rw [hcb, h4, satellites_release, satellites_updDrone]
  refine ⟨d2, by rw [hcb]; exact h1, h2, h3, ?_⟩
  have hfs : findSat (harvestingBlock cfg dist w did d) sid = findSat w sid := by
    unfold findSat
    rw [hss]
  rw [hfs, hs]
  rfl

/-! ### Claim theorems -/

/-- C5: energy is conserved by every transfer of the route pass.  A charging
transfer moves exactly g = min(charge rate, drone payload, satellite
deficit): the drone loses g, the satellite gains g, g never exceeds the
deficit nor the payload, and the payload+energy sum is unchanged; the
harvesting transfer is symmetric, bounded by free payload capacity and the
amount above the harvest floor. -/
theorem c5_transfer_conservation :
    (∀ (cfg : Config) (dist : Dist) (w : World) (did : String) (d : Drone)
       (sid : String) (s : Sat),
      findDrone w did = some d → d.status = "charging" →
      d.target = some (Target.sat sid) → findSat w sid = some s →
      chargingStopReason cfg s { d with dwell_ticks := d.dwell_ticks + 1 } = none →
      0 < chargeAmount cfg s d →
      ((findDrone (processDrone cfg dist w did) did).map (fun x => x.battery) =
          some (d.battery - chargeAmount cfg s d) ∧
       (findSat (processDrone cfg dist w did) sid).map (fun x => x.energy_amount) =
          some (s.energy_amount + chargeAmount cfg s d) ∧
       chargeAmount cfg s d ≤ d.battery ∧
       chargeAmount cfg s d ≤ s.max_energy - s.energy_amount ∧
       (d.battery - chargeAmount cfg s d) +
         (s.energy_amount + chargeAmount cfg s d) =
         d.battery + s.energy_amount)) ∧
    (∀ (cfg : Config) (dist : Dist) (w : World) (did : String) (d : Drone)
       (sid : String) (s : Sat),
      findDrone w did = some d → d.status = "harvesting" →
      d.target = some (Target.sat sid) → findSat w sid = some s →
      harvestStopReason cfg s { d with dwell_ticks := d.dwell_ticks + 1 } = none →
      0 < harvestAmount cfg s d →
      ((findDrone (processDrone cfg dist w did) did).map (fun x => x.battery) =
          some (d.battery + harvestAmount cfg s d) ∧
       (findSat (processDrone cfg dist w did) sid).map (fun x => x.energy_amount) =
          some (s.energy_amount - harvestAmount cfg s d) ∧
       harvestAmount cfg s d ≤ cfg.DRONE_PAYLOAD_MAX - d.battery ∧
       harvestAmount cfg s d ≤ max 0 (s.energy_amount - cfg.HARVEST_FLOOR) ∧
       (d.battery + harvestAmount cfg s d) +
         (s.energy_amount - harvestAmount cfg s d) =
         d.battery + s.energy_amount)) := by
  constructor
  · intro cfg dist w did d sid s hfd hst htg hs hstop hg
    rw [processDrone_status_charging cfg dist w did d hfd hst]
    obtain ⟨h1, h2⟩ := chargingBlock_transfer cfg dist w did d sid s htg hs hstop hg hfd
    exact ⟨h1, h2, chargeAmount_le_battery cfg s d, chargeAmount_le_deficit cfg s d,
      by ring⟩
  · intro cfg dist w did d sid s hfd hst htg hs hstop hg
    rw [processDrone_status_harvesting cfg dist w did d hfd hst]
    obtain ⟨h1, h2⟩ := harvestingBlock_transfer cfg dist w did d sid s htg hs hstop hg hfd
    exact ⟨h1, h2, harvestAmount_le_free cfg s d, harvestAmount_le_avail cfg s d,
      by ring⟩

/-- Witness for C5 at concrete inputs: a charging drone with payload 20 at
a satellite with energy 50 transfers g = 8 (payload 20 → 12, energy
50 → 58), and a harvesting drone with payload 20 at a satellite with
energy 100 takes 10 (payload 20 → 30, energy 100 → 90). -/
theorem c5_transfer_conservation_witness :
    ((findDrone (processDrone CONFIG dist0 wC5 "d1") "d1").map (fun x => x.battery) =
      some (droC5.battery - chargeAmount CONFIG satC2 droC5) ∧
     (findSat (processDrone CONFIG dist0 wC5 "d1") "s1").map (fun x => x.energy_amount) =
      some (satC2.energy_amount + chargeAmount CONFIG satC2 droC5) ∧
     chargeAmount CONFIG satC2 droC5 ≤ droC5.battery ∧
     chargeAmount CONFIG satC2 droC5 ≤ satC2.max_energy - satC2.energy_amount ∧
     (droC5.battery - chargeAmount CONFIG satC2 droC5) +
       (satC2.energy_amount + chargeAmount CONFIG satC2 droC5) =
       droC5.battery + satC2.energy_amount) ∧
    ((findDrone (processDrone CONFIG dist0 wC5h "d2") "d2").map (fun x => x.battery) =
      some (droC5h.battery + harvestAmount CONFIG satC5h droC5h) ∧
     (findSat (processDrone CONFIG dist0 wC5h "d2") "s1").map (fun x => x.energy_amount) =
      some (satC5h.energy_amount - harvestAmount CONFIG satC5h droC5h)) := by
  have hch := c5_transfer_conservation.1 CONFIG dist0 wC5 "d1" droC5 "s1" satC2
    rfl rfl rfl rfl
    (by norm_num [chargingStopReason, satC2, droC5, CONFIG])
    (by norm_num [chargeAmount, satC2, droC5, CONFIG])
  have hhv := c5_transfer_conservation.2 CONFIG dist0 wC5h "d2" droC5h "s1" satC5h
    rfl rfl rfl rfl
    (by norm_num [harvestStopReason, satC5h, droC5h, CONFIG])
    (by norm_num [harvestAmount, satC5h, droC5h, CONFIG])
  exact ⟨⟨hch.1, hch.2.1, hch.2.2.1, hch.2.2.2.1, hch.2.2.2.2⟩, hhv.1, hhv.2.1⟩

/-- C8 (amended): the charging tick stops exactly when the satellite is
full within SAT_FULL_EPS, or the drone's payload is below
PAYLOAD_CHARGE_MIN (the recorded reason "empty" — not payload exactly
zero), or the incremented dwell counter has reached DRONE_MAX_DWELL_TICKS,
with reason priority full, then empty, then max_dwell; a stopping drone
transfers nothing, keeps its payload, and leaves the charging state
through mission re-selection; a satellite at max_energy − 0.1 is within
the 0.5 epsilon, so the drone stops that tick with reason "full". -/
theorem c8_charging_stop_conditions :
    (∀ (cfg : Config) (s : Sat) (d : Drone),
      (chargingStopReason cfg s d).isSome = true ↔
        (s.energy_amount ≥ s.max_energy - cfg.SAT_FULL_EPS ∨
         d.battery < cfg.PAYLOAD_CHARGE_MIN ∨
         d.dwell_ticks ≥ cfg.DRONE_MAX_DWELL_TICKS)) ∧
    (∀ (cfg : Config) (s : Sat) (d : Drone),
      (s.energy_amount ≥ s.max_energy - cfg.SAT_FULL_EPS →
        chargingStopReason cfg s d = some "full") ∧
      (¬ s.energy_amount ≥ s.max_energy - cfg.SAT_FULL_EPS →
        d.battery < cfg.PAYLOAD_CHARGE_MIN →
        chargingStopReason cfg s d = some "empty") ∧
      (¬ s.energy_amount ≥ s.max_energy - cfg.SAT_FULL_EPS →
        ¬ d.battery < cfg.PAYLOAD_CHARGE_MIN →
        d.dwell_ticks ≥ cfg.DRONE_MAX_DWELL_TICKS →
        chargingStopReason cfg s d = some "max_dwell")) ∧
    (∀ (cfg : Config) (dist : Dist) (w : World) (did : String) (d : Drone)
       (sid : String) (s : Sat) (r : String),
      findDrone w did = some d → d.status = "charging" →
      d.target = some (Target.sat sid) → findSat w sid = some s →
      chargingStopReason cfg s { d with dwell_ticks := d.dwell_ticks + 1 } = some r →
      ∃ d2, findDrone (processDrone cfg dist w did) did = some d2 ∧
        (d2.status = "returning" ∨ d2.status = "enroute") ∧
        d2.battery = d.battery ∧
        (findSat (processDrone cfg dist w did) sid).map (fun x => x.energy_amount) =
          some s.energy_amount) ∧
    (∀ (s : Sat) (d : Drone), s.energy_amount = s.max_energy - 1/10 →
      chargingStopReason CONFIG s d = some "full") := by
  refine ⟨?_, ?_, ?_, ?_⟩
  · intro cfg s d
    unfold chargingStopReason
    split
    · next h => simp [h]
    · next h =>
        split
        · next h2 => simp [h, h2]
        · next h2 =>
            split
            · next h3 => simp [h, h2, h3]
            · next h3 => simp [h, h2, h3]
  · intro cfg s d
    refine ⟨?_, ?_, ?_⟩
    · intro h
      unfold chargingStopReason
      rw [if_pos h]
    · intro h h2
      unfold chargingStopReason
      rw [if_neg h, if_pos h2]
    · intro h h2 h3
      unfold chargingStopReason
      rw [if_neg h, if_neg h2, if_pos h3]
  · intro cfg dist w did d sid s r hfd hst htg hs hstop
    rw [processDrone_status_charging cfg dist w did d hfd hst]
    exact chargingBlock_stop cfg dist w did d sid s r htg hs hfd hstop
  · intro s d hse
    unfold chargingStopReason
    have heps : CONFIG.SAT_FULL_EPS = 1/2 := rfl
    rw [if_pos (show s.energy_amount ≥ s.max_energy - CONFIG.SAT_FULL_EPS by
      rw [hse, heps]; linarith)]

/-- Witness for C8 at concrete inputs: the iff at a non-stopping state, the
"full" reason at a satellite 0.1 below full, and the route-level stop
behaviour on the world wC8. -/
theorem c8_charging_stop_conditions_witness :
    (¬ ((chargingStopReason CONFIG satC5h droC5).isSome = true)) ∧
    chargingStopReason CONFIG
      { satC5h with energy_amount := satC5h.max_energy - 1/10 } droC5 = some "full" ∧
    (∃ d2, findDrone (processDrone CONFIG dist0 wC8 "d1") "d1" = some d2 ∧
      (d2.status = "returning" ∨ d2.status = "enroute") ∧
      d2.battery = droC8.battery ∧
      (findSat (processDrone CONFIG dist0 wC8 "d1") "s1").map (fun x => x.energy_amount) =
        some satC2.energy_amount) := by
  refine ⟨?_, ?_, ?_⟩
  · intro h
    have hd := (c8_charging_stop_conditions.1 CONFIG satC5h droC5).mp h
    norm_num [satC5h, droC5, CONFIG] at hd
  · exact c8_charging_stop_conditions.2.2.2
      { satC5h with energy_amount := satC5h.max_energy - 1/10 } droC5 rfl
  · exact c8_charging_stop_conditions.2.2.1 CONFIG dist0 wC8 "d1" droC8 "s1" satC2
      "empty" rfl rfl rfl rfl
      (by norm_num [chargingStopReason, satC2, droC8, CONFIG])

/-- C8 counterexample: drone d1 is charging satellite s1 with payload 10,
which is not empty (0 < 10), the satellite is far from full
(50 < 120 − 0.5) and the dwell counter is far below the limit, so by the
claim the drone should transfer energy this tick; instead the route pass
stops it (payload 10 is below PAYLOAD_CHARGE_MIN = 15): it leaves the
charging state with its payload intact and the satellite energy unchanged. -/
theorem c8_counterexample :
    satC2.energy_amount < satC2.max_energy - CONFIG.SAT_FULL_EPS ∧
    droC8.battery ≠ 0 ∧ 0 < droC8.battery ∧
    droC8.dwell_ticks + 1 < CONFIG.DRONE_MAX_DWELL_TICKS ∧
    (route CONFIG dist0 wC8).batteries.map (fun d => (d.status, d.battery)) =
      [("returning", 10)] ∧
    (route CONFIG dist0 wC8).satellites.map (fun s => s.energy_amount) = [50] := by
  refine ⟨by norm_num [satC2, CONFIG], by norm_num [droC8],
    by norm_num [droC8], by norm_num [droC8, CONFIG], ?_, ?_⟩ <;>
  norm_num +decide [route, auto_dispatch, dispatchOne, sortByEnergy, insertByEnergy,
    closestAvail, processDrone, chargingBlock, harvestingBlock, travelToEarth,
    travelToSat, tick_travel, arrive_at, recoverFn, choose_next_mission,
    chooseHarvestOrEarth, should_go_to_earth, find_charging_target,
    find_harvest_source, firstMinLex, firstMinLexAux, firstMaxBy, firstMaxByAux,
    lexLt, chargingCount, harvestingCount, beingCharged, goToEarth, goEnrouteTo,
    release_current_claim, release_sat, try_claim_sat, lookupTab, setTab, eraseTab,
    targetSatId, set_course, reserve_cost_km, can_reach, chargingStopReason,
    harvestStopReason, chargeAmount, harvestAmount, updDrone, updSat, replaceFirst,
    findDrone, findSat, List.find?, CONFIG, dist0, wC8, droC8, satC2]

theorem processDrone_travel_sat (cfg : Config) (dist : Dist) (w : World)
    (did : String) (d : Drone) (sid : String)
    (hfd : findDrone w did = some d)
    (hst : d.status = "enroute" ∨ d.status = "returning")
    (htg : d.target = some (Target.sat sid)) :
    processDrone cfg dist w did = travelToSat cfg dist w did d sid := by
  have hos : ¬ d.status = "out_of_service" := by
    rcases hst with h | h <;> simp [h]
  simp only [processDrone, hfd, htg]
  rw [if_neg hos, if_pos hst]

theorem processDrone_travel_earth (cfg : Config) (dist : Dist) (w : World)
    (did : String) (d : Drone)
    (hfd : findDrone w did = some d)
    (hst : d.status = "enroute" ∨ d.status = "returning")
    (htg : d.target = some Target.earth) :
    processDrone cfg dist w did = travelToEarth cfg dist w did d := by
  have hos : ¬ d.status = "out_of_service" := by
    rcases hst with h | h <;> simp [h]
  simp only [processDrone, hfd, htg]
  rw [if_neg hos, if_pos hst]

theorem tick_travel_timeout (cfg : Config) (dest : Pos) (d : Drone)
    (hmode : cfg.DRONE_TRAVEL_INSTANT = false)
    (heta : 0 < d.eta_ticks)
    (hTmax : cfg.DRONE_ENROUTE_MAX_TICKS ≤ d.enroute_ticks + 1) :
    tick_travel cfg dest d =
      ({ d with eta_ticks := d.eta_ticks - 1,
                enroute_ticks := d.enroute_ticks + 1 }, TravelRes.timeout) := by
  unfold tick_travel
  rw [if_neg (by simp [hmode]), if_pos heta, if_pos hTmax]

/-- C9: in multi-tick travel mode, a drone whose en-route counter reaches
the configured maximum on this pass (before arrival) is recovered by the
same pass: its claim is released, it is teleported to its home base, both
gauges are refilled to their maxima, and its status is set to returning;
moreover an en-route counter strictly below the budget is an invariant of
the route pass, so no drone is ever in the enroute state with its counter at
or past the budget. -/
theorem c9_timeout_recovery (cfg : Config) (dist : Dist)
    (hmode : cfg.DRONE_TRAVEL_INSTANT = false)
    (hmax : 0 < cfg.DRONE_ENROUTE_MAX_TICKS) :
    (∀ (w : World) (did : String) (d : Drone) (sid : String) (s : Sat),
      findDrone w did = some d →
      (d.status = "enroute" ∨ d.status = "returning") →
      d.target = some (Target.sat sid) → findSat w sid = some s →
      0 < d.eta_ticks →
      cfg.DRONE_ENROUTE_MAX_TICKS ≤ d.enroute_ticks + 1 →
      (w.claims.map Prod.fst).Nodup →
      ∃ d2, findDrone (processDrone cfg dist w did) did = some d2 ∧
        d2.status = "returning" ∧ d2.position = d.home_base ∧
        d2.battery = cfg.DRONE_PAYLOAD_MAX ∧
        d2.reserve_battery = cfg.DRONE_RESERVE_MAX ∧
        d2.target = some Target.earth ∧
        lookupTab (processDrone cfg dist w did).claims sid ≠ some did) ∧
    (∀ (w : World) (did : String) (d : Drone),
      findDrone w did = some d →
      (d.status = "enroute" ∨ d.status = "returning") →
      d.target = some Target.earth →
      0 < d.eta_ticks →
      cfg.DRONE_ENROUTE_MAX_TICKS ≤ d.enroute_ticks + 1 →
      ∃ d2, findDrone (processDrone cfg dist w did) did = some d2 ∧
        d2.status = "returning" ∧ d2.position = d.home_base ∧
        d2.battery = cfg.DRONE_PAYLOAD_MAX ∧
        d2.reserve_battery = cfg.DRONE_RESERVE_MAX ∧
        d2.target = some Target.earth) ∧
    (∀ w : World, AllDrones (EnrouteBudget cfg) w →
      AllDrones (EnrouteBudget cfg) (route cfg dist w)) := by
  refine ⟨?_, ?_, fun w h => route_pres (budgetKit cfg dist hmax) h⟩
  · intro w did d sid s hfd hst htg hs heta hTmax hnd
    have hid : d.battery_id = did := by
      have := List.find?_some hfd
      simpa using this
    rw [processDrone_travel_sat cfg dist w did d sid hfd hst htg]
    have htt := tick_travel_timeout cfg s.position d hmode heta hTmax
    have hts : travelToSat cfg dist w did d sid =
        updDrone (release_current_claim w
          { d with eta_ticks := d.eta_ticks - 1,
                   enroute_ticks := d.enroute_ticks + 1 }) did
          (fun _ => recoverFn cfg
            { d with eta_ticks := d.eta_ticks - 1,
                     enroute_ticks := d.enroute_ticks + 1 }) := by
      simp only [travelToSat, hs, htt]
    rw [hts]
    refine ⟨recoverFn cfg
      { d with eta_ticks := d.eta_ticks - 1,
               enroute_ticks := d.enroute_ticks + 1 }, ?_, rfl, rfl, rfl, rfl, rfl, ?_⟩
    · rw [findDrone_updDrone _ _ _ (fun x hx => by rw [hx]; exact hid.symm ▸ rfl),
        findDrone_release, hfd]
      rfl
    · have hclaims : (updDrone (release_current_claim w
          { d with eta_ticks := d.eta_ticks - 1,
                   enroute_ticks := d.enroute_ticks + 1 }) did
          (fun _ => recoverFn cfg
            { d with eta_ticks := d.eta_ticks - 1,
                     enroute_ticks := d.enroute_ticks + 1 })).claims =
          release_sat w.claims sid d.battery_id := by
        rw [show (updDrone (release_current_claim w
            { d with eta_ticks := d.eta_ticks - 1,
                     enroute_ticks := d.enroute_ticks + 1 }) did
            (fun _ => recoverFn cfg
              { d with eta_ticks := d.eta_ticks - 1,
                       enroute_ticks := d.enroute_ticks + 1 })).claims =
          (release_current_claim w
            { d with eta_ticks := d.eta_ticks - 1,
                     enroute_ticks := d.enroute_ticks + 1 }).claims from rfl]
        exact claims_release_current_claim_of_sat w _ sid htg
      rw [hclaims, ← hid]
      exact release_sat_lookup_ne w.claims sid d.battery_id hnd
  · intro w did d hfd hst htg heta hTmax
    have hid : d.battery_id = did := by
      have := List.find?_some hfd
      simpa using this
    rw [processDrone_travel_earth cfg dist w did d hfd hst htg]
    have htt := tick_travel_timeout cfg d.home_base d hmode heta hTmax
    have hts : travelToEarth cfg dist w did d =
        updDrone (release_current_claim w
          { d with eta_ticks := d.eta_ticks - 1,
                   enroute_ticks := d.enroute_ticks + 1 }) did
          (fun _ => recoverFn cfg
            { d with eta_ticks := d.eta_ticks - 1,
                     enroute_ticks := d.enroute_ticks + 1 }) := by
      simp only [travelToEarth, htt]
    rw [hts]
    refine ⟨recoverFn cfg
      { d with eta_ticks := d.eta_ticks - 1,
               enroute_ticks := d.enroute_ticks + 1 }, ?_, rfl, rfl, rfl, rfl, rfl⟩
    rw [findDrone_updDrone _ _ _ (fun x hx => by rw [hx]; exact hid.symm ▸ rfl),
      findDrone_release, hfd]
    rfl

/-- Witness for C9 at a concrete multi-tick world: drone d1 en route to s1
with eta 3 and counter 7 against budget 8 is recovered on this pass, and
the en-route budget invariant holds after one route pass. -/
theorem c9_timeout_recovery_witness :
    (∃ d2, findDrone (processDrone cfgMT distFar wC9 "d1") "d1" = some d2 ∧
      d2.status = "returning" ∧ d2.position = droC9.home_base ∧
      d2.battery = cfgMT.DRONE_PAYLOAD_MAX ∧
      d2.reserve_battery = cfgMT.DRONE_RESERVE_MAX ∧
      d2.target = some Target.earth ∧
      lookupTab (processDrone cfgMT distFar wC9 "d1").claims "s1" ≠ some "d1") ∧
    AllDrones (EnrouteBudget cfgMT) (route cfgMT distFar wC9) := by
  constructor
  · exact (c9_timeout_recovery cfgMT distFar rfl (by decide)).1 wC9 "d1" droC9
      "s1" satC9 rfl (Or.inl rfl) rfl rfl (by decide) (by decide) (by decide)
  · refine (c9_timeout_recovery cfgMT distFar rfl (by decide)).2.2 wC9 ?_
    intro d hd
    simp only [wC9, List.mem_singleton] at hd
    subst hd
    intro _
    decide

/-- C1: the code computes the daylight factor and then ignores it — the
solar step adds the raw solar_gen_rate.  At wall-clock time 0 a satellite at
(0, 0) is on the night side (daylight factor 0 for every cosine model), yet
one satellite tick raises its energy from 50 to 50.35 — which differs from
the specified energy + solar_gen_rate × daylight_factor = 50. -/
theorem c1_night_side_still_gains_solar :
    (∀ cosf : ℚ → ℚ,
      daylight_factor cosf satC1.position.lat satC1.position.lon 0 = 0) ∧
    (∀ cosf : ℚ → ℚ,
      (advance_tick CONFIG cosf 0 wC1).satellites.map
        (fun s => s.energy_amount) = [1007/20]) ∧
    (1007/20 : ℚ) ≠ satC1.energy_amount + satC1.solar_gen_rate * 0 := by
  refine ⟨?_, ?_, by norm_num [satC1]⟩
  · intro cosf
    norm_num [daylight_factor, mod24, satC1]
  · intro cosf
    norm_num +decide [advance_tick, advanceSat, stepTask, taskDone,
      daylight_factor, mod24, findSat, updSat, replaceFirst, eraseTab,
      List.find?, CONFIG, wC1, satC1]

/-- C2 counterexample: one tick of the scheduler loop that app.py starts
moves 8 units of energy from drone d1 to satellite s1 (satellite 50 → 58,
drone payload 20 → 12), yet the economics ledger receives no transaction:
the orchestrator's transfers never call process_energy_transfer. -/
theorem c2_counterexample :
    (schedulerTick CONFIG dist0 cos0 0 fwC2).world.satellites.map
      (fun s => s.energy_amount) = [58] ∧
    (schedulerTick CONFIG dist0 cos0 0 fwC2).world.batteries.map
      (fun d => d.battery) = [12] ∧
    (schedulerTick CONFIG dist0 cos0 0 fwC2).econ.transactions = [] ∧
    fwC2.econ.transactions = [] := by
  refine ⟨?_, ?_, rfl, rfl⟩ <;>
  norm_num +decide [schedulerTick, assign_pending, assignLoop, pickBest,
    advance_tick, advanceSat, stepTask, taskDone, daylight_factor, mod24,
    route, auto_dispatch, dispatchOne, sortByEnergy, insertByEnergy,
    closestAvail, processDrone, chargingBlock, harvestingBlock, travelToEarth,
    travelToSat, tick_travel, arrive_at, recoverFn, choose_next_mission,
    chooseHarvestOrEarth, should_go_to_earth, find_charging_target,
    find_harvest_source, firstMinLex, firstMinLexAux, firstMaxBy, firstMaxByAux,
    lexLt, chargingCount, harvestingCount, beingCharged, goToEarth, goEnrouteTo,
    release_current_claim, release_sat, try_claim_sat, lookupTab, setTab,
    eraseTab, targetSatId, set_course, reserve_cost_km, can_reach,
    chargingStopReason, harvestStopReason, chargeAmount, harvestAmount,
    updDrone, updSat, replaceFirst, findDrone, findSat, List.find?, CONFIG,
    dist0, cos0, fwC2, satC2, droC2]

/-- C2 amended: whenever process_energy_transfer IS called it appends exactly
one transaction to the capacity-bounded ledger and updates both parties'
financial counters (satellite-sourced transfers priced dynamically,
Earth-sourced ones free and leaving the drone's counters unchanged), the
bounded append keeps the ledger at min (n+1) capacity entries, and the
scheduler loop the application starts leaves the economics engine untouched
— so no running transfer produces a ledger record. -/
theorem c2_ledger_contract :
    (∀ (econ : Econ) (s : Sat) (d : Drone) (amount : ℚ) (tt txid : String)
      (now : ℚ),
      (process_energy_transfer econ (some s) d amount tt txid now).1.transactions
        = appendBounded LEDGER_CAP econ.transactions
            (process_energy_transfer econ (some s) d amount tt txid now).2.2.2 ∧
      (process_energy_transfer econ (some s) d amount tt txid now).1.total_volume_sol
        = econ.total_volume_sol + amount * calculate_dynamic_price s ∧
      (process_energy_transfer econ (some s) d amount tt txid now).2.1 =
        some { s with
          total_revenue := s.total_revenue + amount * calculate_dynamic_price s,
          total_energy_sold := s.total_energy_sold + amount } ∧
      (process_energy_transfer econ (some s) d amount tt txid now).2.2.1 =
        { d with
          total_spent := d.total_spent + amount * calculate_dynamic_price s,
          total_energy_bought := d.total_energy_bought + amount } ∧
      (process_energy_transfer econ (some s) d amount tt txid now).2.2.2.energy_amount
        = amount) ∧
    (∀ (econ : Econ) (d : Drone) (amount : ℚ) (tt txid : String) (now : ℚ),
      (process_energy_transfer econ none d amount tt txid now).1.transactions
        = appendBounded LEDGER_CAP econ.transactions
            (process_energy_transfer econ none d amount tt txid now).2.2.2 ∧
      (process_energy_transfer econ none d amount tt txid now).2.2.1 = d ∧
      (process_energy_transfer econ none d amount tt txid now).2.2.2.total_cost
        = 0) ∧
    (∀ (l : List Transaction) (x : Transaction),
      (appendBounded LEDGER_CAP l x).length = min (l.length + 1) LEDGER_CAP) ∧
    (∀ (cfg : Config) (dist : Dist) (cosf : ℚ → ℚ) (now_s : ℚ) (fw : FullWorld),
      (schedulerTick cfg dist cosf now_s fw).econ = fw.econ) := by
  refine ⟨fun econ s d amount tt txid now => ⟨rfl, rfl, rfl, rfl, rfl⟩,
    fun econ d amount tt txid now => ⟨rfl, rfl, rfl⟩, ?_,
    fun cfg dist cosf now_s fw => rfl⟩
  intro l x
  simp only [appendBounded]
  split
  · next h =>
      simp only [List.length_drop, List.length_append, List.length_singleton] at *
      omega
  · next h =>
      simp only [List.length_append, List.length_singleton] at *
      omega

theorem check_equilibrium_tick_count (cfg : Config) (w : World) (m : Monitor) :
    (check_equilibrium cfg w m).tick_count = m.tick_count := by
  simp only [check_equilibrium]
  split
  · rfl
  · split <;> rfl

theorem record_tick_tick_count (cfg : Config) (w : World) (m : Monitor) :
    (record_tick cfg w m).tick_count = m.tick_count + 1 := by
  simp only [record_tick]
  split
  · rw [check_equilibrium_tick_count]
  · rfl

/-- C4 counterexample: one tick of the scheduler loop that app.py starts
advances the world (the satellite's energy changes from 50 to 50.35) while
the equilibrium monitor stays exactly in its initial state — empty history,
tick counter 0 — because the started loop has only three stages and never
calls the monitor's record step. -/
theorem c4_counterexample :
    (schedulerTick CONFIG dist0 cos0 0 fwC4).world.satellites.map
      (fun s => s.energy_amount) = [1007/20] ∧
    fwC4.world.satellites.map (fun s => s.energy_amount) = [50] ∧
    (schedulerTick CONFIG dist0 cos0 0 fwC4).monitor = fwC4.monitor ∧
    fwC4.monitor = ({} : Monitor) := by
  refine ⟨?_, by norm_num [fwC4, wC1, satC1], rfl, rfl⟩
  norm_num +decide [schedulerTick, assign_pending, assignLoop, pickBest,
    advance_tick, advanceSat, stepTask, taskDone, daylight_factor, mod24,
    route, auto_dispatch, dispatchOne, sortByEnergy, insertByEnergy,
    closestAvail, chargingCount, harvestingCount, beingCharged, firstMinLex,
    firstMinLexAux, lexLt, updDrone, updSat, replaceFirst, findDrone, findSat,
    eraseTab, List.find?, CONFIG, dist0, cos0, fwC4, wC1, satC1]

/-- C4 amended: the tick the application actually runs has exactly three
stages in order — assign_pending, the satellite advance, route — and leaves
the equilibrium monitor and the economics engine untouched; the four-stage
loop that additionally runs the monitor's record step (bumping its tick
counter once per iteration) lives in a parallel module the application never
starts. -/
theorem c4_tick_stages :
    (∀ (cfg : Config) (dist : Dist) (cosf : ℚ → ℚ) (now_s : ℚ) (fw : FullWorld),
      (schedulerTick cfg dist cosf now_s fw).world =
        route cfg dist (advance_tick cfg cosf now_s (assign_pending cfg fw.world)) ∧
      (schedulerTick cfg dist cosf now_s fw).monitor = fw.monitor ∧
      (schedulerTick cfg dist cosf now_s fw).econ = fw.econ) ∧
    (∀ (cfg : Config) (dist : Dist) (cosf : ℚ → ℚ) (now_s : ℚ) (fw : FullWorld),
      (monitorLoopTick cfg dist cosf now_s fw).world =
        route cfg dist (advance_tick cfg cosf now_s (assign_pending cfg fw.world)) ∧
      (monitorLoopTick cfg dist cosf now_s fw).monitor =
        record_tick cfg (monitorLoopTick cfg dist cosf now_s fw).world
          fw.monitor ∧
      (monitorLoopTick cfg dist cosf now_s fw).monitor.tick_count =
        fw.monitor.tick_count + 1) := by
  refine ⟨fun cfg dist cosf now_s fw => ⟨rfl, rfl, rfl⟩,
    fun cfg dist cosf now_s fw => ⟨rfl, rfl, ?_⟩⟩
  exact record_tick_tick_count cfg _ fw.monitor

/-- C6: head-of-line blocking in the delegator — when the best-satellite
scan for the task at the head of the queue yields no satellite, or a best
score below the -1e8 rejection sentinel, assign_pending returns the world
unchanged (no task behind the head is assigned that tick); and in every call
the surviving queue is a suffix of the original, so tasks are only ever
consumed from the front in arrival order. -/
theorem c6_head_of_line :
    (∀ (cfg : Config) (w : World) (t : Task) (rest : List Task),
      w.queue = t :: rest →
      ((pickBest cfg w.satellites t).1 = none ∨
        (pickBest cfg w.satellites t).2 < -(10^8)) →
      assign_pending cfg w = w) ∧
    (∀ (cfg : Config) (q : List Task) (sats : List Sat)
      (asg : List (String × String)),
      ∃ k, (assignLoop cfg q sats asg).1 = q.drop k) := by
  constructor
  · intro cfg w t rest hq hblk
    have hl : assignLoop cfg (t :: rest) w.satellites w.assigned =
        (t :: rest, w.satellites, w.assigned) := by
      rcases hblk with hn | hlt
      · simp only [assignLoop, hn]
      · cases hp : (pickBest cfg w.satellites t).1 with
        | none => simp only [assignLoop, hp]
        | some b =>
            simp only [assignLoop, hp]
            rw [if_pos hlt]
    simp only [assign_pending, hq, hl]
    rw [← hq]
  · intro cfg q sats asg
    induction q generalizing sats asg with
    | nil => exact ⟨0, rfl⟩
    | cons t rest ih =>
        cases hp : (pickBest cfg sats t).1 with
        | none =>
            refine ⟨0, ?_⟩
            simp only [assignLoop, hp]
            rfl
        | some b =>
            by_cases hlt : (pickBest cfg sats t).2 < -(10^8)
            · refine ⟨0, ?_⟩
              simp only [assignLoop, hp]
              rw [if_pos hlt]
              rfl
            · obtain ⟨k, hk⟩ := ih
                (sats.map (fun s =>
                  if s.satellite_id = b.satellite_id then
                    { s with current_tasks := s.current_tasks ++ [mkTaskRec t] }
                  else s))
                (setTab asg t.task_id b.satellite_id)
              refine ⟨k + 1, ?_⟩
              simp only [assignLoop, hp]
              rw [if_neg hlt]
              exact hk

/-- Witness for C6: in wC6 the head task tA finds no eligible satellite
(the only satellite is below the minimum acceptance energy), so the pass
leaves the whole world — including the queued task tB behind the head —
untouched, and the returned queue is a suffix of the original. -/
theorem c6_head_of_line_witness :
    assign_pending CONFIG wC6 = wC6 ∧
    ∃ k, (assignLoop CONFIG wC6.queue wC6.satellites wC6.assigned).1 =
      wC6.queue.drop k := by
  constructor
  · exact c6_head_of_line.1 CONFIG wC6 taskA [taskB] rfl
      (Or.inl (by norm_num +decide [pickBest, score, List.foldl, CONFIG,
        wC6, satC6, taskA]))
  · exact c6_head_of_line.2 CONFIG wC6.queue wC6.satellites wC6.assigned

/-- C7: claim-table contract — try_claim_sat succeeds exactly when the
satellite is unclaimed or already owned by the same drone; success records
that drone as the sole owner, touches no other satellite's entry, and
preserves key uniqueness (at most one claimant per satellite); failure
leaves the table unchanged; a successful claim immediately re-claimed by the
same drone succeeds again without changing the owner; release_sat is a no-op
unless the caller owns the claim, in which case the entry is removed. -/
theorem c7_claim_table (t : List (String × String)) (sid did : String)
    (hnd : (t.map Prod.fst).Nodup) :
    ((try_claim_sat t sid did).1 = true ↔
      lookupTab t sid = none ∨ lookupTab t sid = some did) ∧
    ((try_claim_sat t sid did).1 = true →
      lookupTab (try_claim_sat t sid did).2 sid = some did ∧
      (∀ k, k ≠ sid →
        lookupTab (try_claim_sat t sid did).2 k = lookupTab t k) ∧
      (((try_claim_sat t sid did).2.map Prod.fst)).Nodup ∧
      (try_claim_sat (try_claim_sat t sid did).2 sid did).1 = true ∧
      lookupTab (try_claim_sat (try_claim_sat t sid did).2 sid did).2 sid =
        some did) ∧
    ((try_claim_sat t sid did).1 = false → (try_claim_sat t sid did).2 = t) ∧
    (lookupTab t sid ≠ some did → release_sat t sid did = t) ∧
    (lookupTab t sid = some did →
      lookupTab (release_sat t sid did) sid = none ∧
      ∀ k, k ≠ sid → lookupTab (release_sat t sid did) k = lookupTab t k) := by
  have hsucc : ∀ (t2 : List (String × String)),
      lookupTab t2 sid = some did →
      (try_claim_sat t2 sid did).1 = true ∧
      (try_claim_sat t2 sid did).2 = setTab t2 sid did := by
    intro t2 h2
    simp [try_claim_sat, h2]
  refine ⟨?_, ?_, ?_, ?_, ?_⟩
  · simp only [try_claim_sat]
    cases hl : lookupTab t sid with
    | none => simp
    | some owner =>
        by_cases ho : owner = did
        · subst ho
          simp
        · simp only [if_neg ho]
          simp [ho]
  · intro hs
    have htab : (try_claim_sat t sid did).2 = setTab t sid did := by
      cases hl : lookupTab t sid with
      | none => simp [try_claim_sat, hl]
      | some owner =>
          by_cases ho : owner = did
          · subst ho
            simp [try_claim_sat, hl]
          · exfalso
            simp [try_claim_sat, hl, ho] at hs
    rw [htab]
    have hown := lookupTab_setTab_self t sid did
    refine ⟨hown, fun k hk => lookupTab_setTab_other t sid did k hk,
      nodup_keys_setTab t sid did hnd, ?_, ?_⟩
    · exact (hsucc _ hown).1
    · rw [(hsucc _ hown).2]
      exact lookupTab_setTab_self _ sid did
  · intro hf
    cases hl : lookupTab t sid with
    | none => exfalso; simp [try_claim_sat, hl] at hf
    | some owner =>
        by_cases ho : owner = did
        · exfalso; simp [try_claim_sat, hl, ho] at hf
        · simp [try_claim_sat, hl, ho]
  · intro hne
    simp only [release_sat, if_neg hne]
  · intro hown
    simp only [release_sat, if_pos hown]
    exact ⟨lookupTab_eraseTab_self t sid hnd,
      fun k hk => lookupTab_eraseTab_other t sid k hk⟩

/-- Witness for C7 on the concrete table [(s1, dA)]: a claim on s1 by dA
succeeds exactly because dA already owns it. -/
theorem c7_claim_table_witness :
    ((try_claim_sat tabC7 "s1" "dA").1 = true ↔
      lookupTab tabC7 "s1" = none ∨ lookupTab tabC7 "s1" = some "dA") ∧
    (lookupTab tabC7 "s1" = none ∨ lookupTab tabC7 "s1" = some "dA") :=
  ⟨(c7_claim_table tabC7 "s1" "dA" (by decide)).1, Or.inr (by decide)⟩

/-- C10: any priority string outside low/medium/high gets weight 0.0 —
identical to "low" — so the delegator scores, and hence selects satellites
for, such a task exactly as it would the same task at low priority, and task
ingestion appends it to the queue like any other task (never rejected). -/
theorem c10_unknown_priority (p : String)
    (hp : p ≠ "low" ∧ p ≠ "medium" ∧ p ≠ "high") :
    priorityWeight p = 0 ∧
    priorityWeight p = priorityWeight "low" ∧
    (∀ (cfg : Config) (s : Sat) (t : Task), t.priority = p →
      score cfg s t = score cfg s { t with priority := "low" }) ∧
    (∀ (cfg : Config) (sats : List Sat) (t : Task), t.priority = p →
      pickBest cfg sats t = pickBest cfg sats { t with priority := "low" }) ∧
    (∀ (w : World) (t : Task), create_task w t = { w with queue := w.queue ++ [t] }) := by
  have h0 : priorityWeight p = 0 := by
    simp only [priorityWeight, if_neg hp.1, if_neg hp.2.1, if_neg hp.2.2]
  have hlow : priorityWeight "low" = 0 := by decide
  have hsc : ∀ (cfg : Config) (s : Sat) (t : Task), t.priority = p →
      score cfg s t = score cfg s { t with priority := "low" } := by
    intro cfg s t ht
    simp only [score, ht, h0, hlow]
  refine ⟨h0, h0.trans hlow.symm, hsc, ?_, fun w t => rfl⟩
  intro cfg sats t ht
  simp only [pickBest, hsc cfg _ t ht]

/-- Witness for C10 at the unknown priority "urgent": weight 0 and the same
score as the low-priority variant of the task. -/
theorem c10_unknown_priority_witness :
    priorityWeight "urgent" = 0 ∧
    score CONFIG satC6 taskC10 =
      score CONFIG satC6 { taskC10 with priority := "low" } := by
  have h := c10_unknown_priority "urgent" ⟨by decide, by decide, by decide⟩
  exact ⟨h.1, h.2.2.1 CONFIG satC6 taskC10 rfl⟩

/-- C3 counterexample: from the validly gauged seed world wC3 (one standby
drone with payload 0 and reserve 5, both gauges in range), a single
orchestration tick is a reachable state in which the drone's reserve is
-5.007: choose_next_mission sends the drone home through set_course with no
reachability check, deducting the full distance cost from the reserve. -/
theorem c3_counterexample :
    AllDrones (DroneGauges CONFIG) wC3 ∧
    (0 : ℚ) ≤ droC3.reserve_battery ∧
    Reach CONFIG distFar wC3
      (route CONFIG distFar
        (advance_tick CONFIG cos0 0 (assign_pending CONFIG wC3))) ∧
    (route CONFIG distFar
        (advance_tick CONFIG cos0 0 (assign_pending CONFIG wC3))).batteries.map
      (fun d => d.reserve_battery) = [-(5007/1000)] ∧
    (-(5007/1000) : ℚ) < 0 := by
  refine ⟨?_, by norm_num [droC3], Reach.tick wC3 wC3 cos0 0 (Reach.refl wC3),
    ?_, by norm_num⟩
  · intro d hd
    simp only [wC3, List.mem_singleton] at hd
    subst hd
    refine ⟨by norm_num [droC3], by norm_num [droC3, CONFIG],
      by norm_num [droC3, CONFIG]⟩
  · norm_num +decide [assign_pending, assignLoop, advance_tick,
      route, auto_dispatch, dispatchOne, sortByEnergy, insertByEnergy,
      closestAvail, processDrone, chargingBlock, harvestingBlock, travelToEarth,
      travelToSat, tick_travel, arrive_at, recoverFn, choose_next_mission,
      chooseHarvestOrEarth, should_go_to_earth, find_charging_target,
      find_harvest_source, firstMinLex, firstMinLexAux, firstMaxBy,
      firstMaxByAux, lexLt, chargingCount, harvestingCount, beingCharged,
      goToEarth, goEnrouteTo, release_current_claim, release_sat, try_claim_sat,
      lookupTab, setTab, eraseTab, targetSatId, set_course, reserve_cost_km,
      can_reach, chargingStopReason, harvestStopReason, chargeAmount,
      harvestAmount, updDrone, updSat, replaceFirst, findDrone, findSat,
      List.find?, CONFIG, cos0, distFar, wC3, droC3]

/-- C3 amended: over every state reachable from a seed world by orchestration
ticks and mission selections, each drone keeps 0 ≤ battery ≤
DRONE_PAYLOAD_MAX and reserve_battery ≤ DRONE_RESERVE_MAX (given a
nonnegative payload capacity, distance function and per-km reserve rate);
the reserve lower bound of the original claim is the part that fails. -/
theorem c3_gauge_invariant (cfg : Config) (dist : Dist)
    (h1 : 0 ≤ cfg.DRONE_PAYLOAD_MAX)
    (h3 : ∀ p q, 0 ≤ dist p q) (h4 : 0 ≤ cfg.DRONE_RESERVE_PER_KM)
    (w w' : World) (hr : Reach cfg dist w w')
    (h0 : AllDrones (DroneGauges cfg) w) :
    AllDrones (DroneGauges cfg) w' := by
  induction hr with
  | refl => exact h0
  | tick w2 cosf now_s h ih =>
      apply route_pres (gaugesKit cfg dist h1 h3 h4)
      intro d hd
      rw [batteries_advance_tick, batteries_assign_pending] at hd
      exact ih d hd
  | select w2 did h ih =>
      exact choose_next_mission_pres (gaugesKit cfg dist h1 h3 h4) ih

/-- Witness for C3 at the concrete seed wC3: the state after one full tick
is reachable and all its drones satisfy the gauge bounds. -/
theorem c3_gauge_invariant_witness :
    AllDrones (DroneGauges CONFIG)
      (route CONFIG distFar
        (advance_tick CONFIG cos0 0 (assign_pending CONFIG wC3))) := by
  apply c3_gauge_invariant CONFIG distFar (by norm_num [CONFIG])
    (fun p q => by unfold distFar; split <;> norm_num)
    (by norm_num [CONFIG]) wC3 _
    (Reach.tick wC3 wC3 cos0 0 (Reach.refl wC3))
  intro d hd
  simp only [wC3, List.mem_singleton] at hd
  subst hd
  refine ⟨by norm_num [droC3], by norm_num [droC3, CONFIG],
    by norm_num [droC3, CONFIG]⟩

end SatVP
